import Mathlib

/-!
# Stripe payment monitor: a shallow embedding of `src/index.js`

The program is an Express application with one interesting route,
`POST /webhook/stripe`, two sinks (`sendGmailAlert`, `addToAirtable`), a
bounded in-memory log (`addLog`, `GET /logs`) and the block of
`processFailedPayment` that turns a Stripe event into the record both sinks
consume.

Modelling choices.

* JavaScript values are the values `JSON.parse` can produce plus `undefined`
  (`JSVal`).  Numbers are IEEE-754 doubles, represented exactly as
  `sign * m * 2 ^ e` (`JSNum`); division and multiplication round to nearest,
  ties to even, as the language prescribes.
* State is passed explicitly (`World`): the `logs` array, what was written
  with `console.log`, and the trace of calls made to the two external
  services.
* The calls to Gmail and Airtable and the clock are inputs of the model: each
  sink receives the outcome of the external call it makes.
* A request goes through the two body parsers registered with `app.use`
  before it reaches the route handler, as in Express; what the parsers and
  `stripe.webhooks.constructEvent` do with bytes is left uninterpreted
  (`BodyParser`, `Stripe`), what they do with the kind of value they are given
  is modelled.
* A thrown exception is a value (`JSError`); `try`/`catch` is `tryCatch`.
* Three built-in conversions whose result no property below depends on are
  parameters (`Builtins`).
-/

namespace StripeMonitor

/-! ## Numbers -/

/-- A JavaScript number: `NaN`, an infinity, or the finite value
`(-1) ^ neg * m * 2 ^ e`.  Zero is `m = 0` (with either sign). -/
inductive JSNum where
  | nan
  | inf (neg : Bool)
  | fin (neg : Bool) (m : Nat) (e : Int)
  deriving DecidableEq, Repr

/-- Number of binary digits of `n`, computed by halving at most `fuel` times. -/
def bitLenAux : Nat → Nat → Nat
  | 0, _ => 0
  | fuel + 1, n => if n = 0 then 0 else bitLenAux fuel (n / 2) + 1

/-- Number of binary digits of `n` (`0` for `0`). -/
def bitLen (n : Nat) : Nat := bitLenAux n n

/-- The integer nearest to `p / q`, a tie going to the even one. -/
def roundHalfEven (p q : Nat) : Nat :=
  if 2 * (p % q) < q then p / q
  else if q < 2 * (p % q) then p / q + 1
  else if (p / q) % 2 = 0 then p / q else p / q + 1

/-- The integer nearest to `p / q`, a tie going to the larger one. -/
def roundHalfUp (p q : Nat) : Nat := (2 * p + q) / (2 * q)

/-- Floor of the binary logarithm of `p / q`, for `p, q > 0`. -/
def floorLog2Ratio (p q : Nat) : Int :=
  let d : Int := (bitLen p : Int) - (bitLen q : Int)
  if q * 2 ^ d.toNat ≤ p * 2 ^ (-d).toNat then d else d - 1

/-- The double nearest to `p / q` (ties to even) with the sign `neg`:
53 significant bits, exponent of the last place at least `-1074`
(subnormals), overflow to infinity from `2 ^ 1024` on, that is when the
rounded value has more than 1024 binary digits. -/
def roundToDouble (neg : Bool) (p q : Nat) : JSNum :=
  if p = 0 then .fin neg 0 0
  else
    let e : Int := max (floorLog2Ratio p q - 52) (-1074)
    let m := roundHalfEven (p * 2 ^ (-e).toNat) (q * 2 ^ e.toNat)
    if 1024 < bitLen (m * 2 ^ e.toNat) then .inf neg else .fin neg m e

/-- The quotient `x / k` for a positive integer literal `k`. -/
def JSNum.divNat (x : JSNum) (k : Nat) : JSNum :=
  match x with
  | .nan => .nan
  | .inf neg => .inf neg
  | .fin neg m e => roundToDouble neg (m * 2 ^ e.toNat) (k * 2 ^ (-e).toNat)

/-- The product `x * k` for a positive integer literal `k`. -/
def JSNum.mulNat (x : JSNum) (k : Nat) : JSNum :=
  match x with
  | .nan => .nan
  | .inf neg => .inf neg
  | .fin neg m e => roundToDouble neg (m * k * 2 ^ e.toNat) (2 ^ (-e).toNat)

/-- The value of a finite number as a rational (`0` for `NaN` and the
infinities). -/
def JSNum.toRat : JSNum → ℚ
  | .fin neg m e => (if neg then -1 else 1) * (m : ℚ) * 2 ^ e
  | _ => 0

/-- Numbers that convert to `false`: `NaN`, `+0` and `-0`. -/
def JSNum.falsy : JSNum → Bool
  | .nan => true
  | .inf _ => false
  | .fin _ m _ => m == 0

/-- Conversions of the language that are left uninterpreted:
`Number::toString` (used by template literals on numbers and by `toFixed`
from `1e21` on), `StringToNumber` and the formatting done by
`Date.prototype.toISOString` on a valid time value (milliseconds). -/
structure Builtins where
  numToString : JSNum → String
  strToNum : String → JSNum
  isoString : Int → String

/-- The decimal digits of `n` with a point before the last two, padded with
zeros on the left to at least three digits: steps 9 and 10 of
`Number.prototype.toFixed` for `fractionDigits = 2`. -/
def fixed2Digits (n : Nat) : String :=
  let m := Nat.toDigits 10 n
  let m := if m.length ≤ 2 then List.replicate (3 - m.length) '0' ++ m else m
  String.mk (m.take (m.length - 2) ++ '.' :: m.drop (m.length - 2))

/-- The method call `x.toFixed(2)`. -/
def JSNum.toFixed2 (B : Builtins) : JSNum → String
  | .nan => "NaN"
  | .inf false => "Infinity"
  | .inf true => "-Infinity"
  | .fin neg m e =>
    let s := if neg && m != 0 then "-" else ""
    if 10 ^ 21 * 2 ^ (-e).toNat ≤ m * 2 ^ e.toNat then s ++ B.numToString (.fin false m e)
    else s ++ fixed2Digits (roundHalfUp (100 * m * 2 ^ e.toNat) (2 ^ (-e).toNat))

/-- The abstract operation `TimeClip`: the time value of `new Date(v)` for a
number `v`, `none` standing for an invalid date. -/
def timeClip : JSNum → Option Int
  | .nan => none
  | .inf _ => none
  | .fin neg m e =>
    if 8640000000000000 * 2 ^ (-e).toNat < m * 2 ^ e.toNat then none
    else
      let t : Nat := m * 2 ^ e.toNat / 2 ^ (-e).toNat
      some (if neg then -(t : Int) else (t : Int))

/-! ## Values -/

/-- A JavaScript value as `JSON.parse` produces it, or `undefined`.  An object
is the list of its own properties. -/
inductive JSVal where
  | undefined
  | null
  | bool (b : Bool)
  | num (n : JSNum)
  | str (s : String)
  | arr (xs : List JSVal)
  | obj (ps : List (String × JSVal))

/-- A thrown exception: the constructor of the error and its `message`. -/
structure JSError where
  name : String
  message : String
  deriving DecidableEq, Repr

/-- The property names the program reads. None of them is a property of a
string, number, boolean or array, so reading one from such a value gives
`undefined`. -/
inductive Key where
  | type | data | object | id | receipt_email | amount | currency
  | last_payment_error | code | message | created
  deriving DecidableEq, Repr

/-- The name of a property as written in the source. -/
def Key.name : Key → String
  | .type => "type"
  | .data => "data"
  | .object => "object"
  | .id => "id"
  | .receipt_email => "receipt_email"
  | .amount => "amount"
  | .currency => "currency"
  | .last_payment_error => "last_payment_error"
  | .code => "code"
  | .message => "message"
  | .created => "created"

/-- The own property `k` of an object given by its property list. -/
def lookupProp (k : String) : List (String × JSVal) → JSVal
  | [] => .undefined
  | (k', v) :: rest => if k' = k then v else lookupProp k rest

/-- The `TypeError` of reading a property of `undefined` or `null` (wording
of V8). -/
def typeErrorRead (base : String) (k : Key) : JSError :=
  ⟨"TypeError", "Cannot read properties of " ++ base ++ " (reading \x27" ++ k.name ++ "\x27)"⟩

/-- Property access `v.k`. -/
def JSVal.getProp (v : JSVal) (k : Key) : Except JSError JSVal :=
  match v with
  | .undefined => .error (typeErrorRead "undefined" k)
  | .null => .error (typeErrorRead "null" k)
  | .obj ps => .ok (lookupProp k.name ps)
  | _ => .ok .undefined

/-- Optional chaining `v?.k`. -/
def JSVal.getOpt (v : JSVal) (k : Key) : JSVal :=
  match v with
  | .obj ps => lookupProp k.name ps
  | _ => .undefined

/-- Whether a value is `undefined` or `null`. -/
def JSVal.nullish : JSVal → Bool
  | .undefined => true
  | .null => true
  | _ => false

/-- The conversion `ToBoolean`. -/
def JSVal.truthy : JSVal → Bool
  | .undefined => false
  | .null => false
  | .bool b => b
  | .num n => !n.falsy
  | .str s => s != ""
  | .arr _ => true
  | .obj _ => true

/-- The operator `v || d`. -/
def JSVal.orElse (v d : JSVal) : JSVal := if v.truthy then v else d

/-- The comparison `v === s` against a string literal. -/
def JSVal.isStr (v : JSVal) (s : String) : Bool :=
  match v with
  | .str t => t == s
  | _ => false

/-- Whether an object has an own property `k`. -/
def hasOwnProp (k : String) (ps : List (String × JSVal)) : Bool :=
  ps.any (fun p => p.1 == k)

/-- The `TypeError` of converting to a primitive an object that offers no
callable `toString` or `valueOf` returning one (wording of V8). -/
def typeErrorPrimitive : JSError := ⟨"TypeError", "Cannot convert object to primitive value"⟩

mutual
/-- The conversion `ToString`, as a template literal applies it. An object
made by `JSON.parse` is converted by `Object.prototype.toString`, unless it has
an own property `toString`: that one is not callable, `valueOf` returns the
object itself, and the conversion throws. An array is converted by `join`. -/
def JSVal.toStr (B : Builtins) : JSVal → Except JSError String
  | .undefined => .ok "undefined"
  | .null => .ok "null"
  | .bool b => .ok (if b then "true" else "false")
  | .num n => .ok (B.numToString n)
  | .str s => .ok s
  | .arr xs => JSVal.joinStr B xs
  | .obj ps => if hasOwnProp "toString" ps then .error typeErrorPrimitive else .ok "[object Object]"
termination_by structural v => v
/-- The method `Array.prototype.join` with the separator `","`: `undefined`
and `null` elements give the empty string, the others are converted in
order, and the first conversion that throws ends the call. -/
def JSVal.joinStr (B : Builtins) : List JSVal → Except JSError String
  | [] => .ok ""
  | x :: rest =>
    let first : Except JSError String :=
      match x with
      | .undefined => .ok ""
      | .null => .ok ""
      | v => JSVal.toStr B v
    match first with
    | .error e => .error e
    | .ok s =>
      match rest with
      | [] => .ok s
      | _ :: _ =>
        match JSVal.joinStr B rest with
        | .error e => .error e
        | .ok r => .ok (s ++ "," ++ r)
termination_by structural xs => xs
end

/-- The conversion `ToNumber`, as an arithmetic operator applies it. An array
or object is first converted to a string, which can throw. -/
def JSVal.toNumber (B : Builtins) (v : JSVal) : Except JSError JSNum :=
  match v with
  | .undefined => .ok .nan
  | .null => .ok (.fin false 0 0)
  | .bool b => .ok (.fin false (if b then 1 else 0) 0)
  | .num n => .ok n
  | .str s => .ok (B.strToNum s)
  | .arr _ => (v.toStr B).map B.strToNum
  | .obj _ => (v.toStr B).map B.strToNum

/-- The expression `new Date(v * 1000).toISOString()`: the `TypeError` of the
conversion of `v` to a number, or a `RangeError` when the date is invalid. -/
def dateISOString (B : Builtins) (v : JSVal) : Except JSError String :=
  match v.toNumber B with
  | .error e => .error e
  | .ok n =>
    match timeClip (n.mulNat 1000) with
    | none => .error ⟨"RangeError", "Invalid time value"⟩
    | some t => .ok (B.isoString t)

/-! ## The log -/

/-- One element of the `logs` array. -/
structure LogEntry where
  timestamp : String
  message : String
  deriving DecidableEq, Repr

/-- The array method `xs.slice(-n)`: the last `n` elements, all of them when
there are fewer. -/
def sliceLast {α : Type} (n : Nat) (xs : List α) : List α := xs.drop (xs.length - n)

/-- A row handed to `table.create`: the field names with their values. -/
abbrev Fields := List (String × JSVal)

/-- A call made to an external service. -/
inductive ExtCall where
  | gmailSend (userId : String) (raw : String)
  | airtableCreate (table : String) (rows : List Fields)

/-- The mutable state: the `logs` array, the lines written by `console.log`,
and the calls made to Gmail and Airtable so far (oldest first). -/
structure World where
  logs : List LogEntry
  console : List String
  calls : List ExtCall

/-- The state at start-up: `let logs = []`, nothing printed, nothing called. -/
def World.init : World := ⟨[], [], []⟩

/-- The function `addLog(message)`; `timestamp` is what
`new Date().toISOString()` returns at the call. -/
def addLog (timestamp message : String) (w : World) : World :=
  let logs := w.logs ++ [{ timestamp := timestamp, message := message }]
  { w with
    logs := if logs.length > 50 then sliceLast 50 logs else logs
    console := w.console ++ ["[" ++ timestamp ++ "] " ++ message] }

/-- A run of `addLog` calls, one per entry, in order. -/
def addLogs (es : List LogEntry) (w : World) : World :=
  es.foldl (fun w e => addLog e.timestamp e.message w) w

/-- The entries `GET /logs` puts under `logs` in its response:
`logs.slice(-20)`. -/
def getLogs (w : World) : List LogEntry := sliceLast 20 w.logs

/-! ## External services -/

/-- What the function reads from `process.env`. -/
structure Env where
  ALERT_EMAIL : Option String
  STRIPE_WEBHOOK_SECRET : Option String

/-- The outcome of `await gmail.users.messages.send(...)`. -/
inductive GmailOutcome where
  | resolved
  | rejected (error : JSError)

/-- A record returned by Airtable; only its `id` is read. -/
structure AirtableRecord where
  id : String
  deriving DecidableEq, Repr

/-- The outcome of `await table.create([...])`: the created records, or an
error. -/
inductive AirtableOutcome where
  | resolved (record : List AirtableRecord)
  | rejected (error : JSError)

/-- How a statement ends: normally with a value, or by throwing; in both
cases with the state it leaves. -/
inductive Completion (α : Type) where
  | normal (a : α) (w : World)
  | throw (e : JSError) (w : World)

/-- The state a completion leaves. -/
def Completion.world {α : Type} : Completion α → World
  | .normal _ w => w
  | .throw _ w => w

/-- The statement `try body catch (error) handler`. -/
def tryCatch (body : Completion Unit) (handler : JSError → World → Completion Unit) :
    Completion Unit :=
  match body with
  | .normal a w => .normal a w
  | .throw e w => handler e w

/-- The call `gmail.users.messages.send`: one attempt is recorded, then the
call resolves or rejects. -/
def gmailSend (userId raw : String) (outcome : GmailOutcome) (w : World) : Completion Unit :=
  let w1 := { w with calls := w.calls ++ [ExtCall.gmailSend userId raw] }
  match outcome with
  | .resolved => .normal () w1
  | .rejected e => .throw e w1

/-- The call `table.create` on the table `table`: one attempt is recorded, then
the call resolves with the records or rejects. -/
def tableCreate (table : String) (rows : List Fields) (outcome : AirtableOutcome) (w : World) :
    Completion (List AirtableRecord) :=
  let w1 := { w with calls := w.calls ++ [ExtCall.airtableCreate table rows] }
  match outcome with
  | .resolved record => .normal record w1
  | .rejected e => .throw e w1

/-! ## Base64 -/

/-- The alphabet of base64. -/
def base64Alphabet : List Char :=
  "ABCDEFGHIJKLMNOPQRSTUVWXYZabcdefghijklmnopqrstuvwxyz0123456789+/".toList

/-- The character for a six-bit group. -/
def base64Char (n : Nat) : Char := base64Alphabet.getD n 'A'

/-- Base64 of a list of bytes, with padding. -/
def base64Encode : List Nat → List Char
  | a :: b :: c :: rest =>
    base64Char (a / 4) :: base64Char (a % 4 * 16 + b / 16) ::
      base64Char (b % 16 * 4 + c / 64) :: base64Char (c % 64) :: base64Encode rest
  | [a, b] => [base64Char (a / 4), base64Char (a % 4 * 16 + b / 16), base64Char (b % 16 * 4), '=']
  | [a] => [base64Char (a / 4), base64Char (a % 4 * 16), '=', '=']
  | [] => []

/-- The bytes of `Buffer.from(s)`: the UTF-8 encoding of `s`. -/
def utf8Bytes (s : String) : List Nat :=
  (s.data.map (fun c => (String.utf8EncodeChar c).map UInt8.toNat)).flatten

/-- The expression
`Buffer.from(message).toString('base64').replace(/\+/g, '-').replace(/\//g, '_').replace(/=+$/, '')`. -/
def encodeMessage (message : String) : String :=
  let b64 := base64Encode (utf8Bytes message)
  let s1 := b64.map (fun c => if c = '+' then '-' else c)
  let s2 := s1.map (fun c => if c = '/' then '_' else c)
  String.mk (s2.reverse.dropWhile (fun c => c = '=')).reverse

/-! ## The sinks -/

/-- The object `paymentData`: the seven properties the sinks read. -/
structure PaymentData where
  payment_id : JSVal
  customer_email : JSVal
  amount : JSVal
  currency : JSVal
  failure_code : JSVal
  failure_message : JSVal
  failed_at : JSVal

/-- The empty object `{}`: every property reads as `undefined`. -/
def PaymentData.empty : PaymentData :=
  ⟨.undefined, .undefined, .undefined, .undefined, .undefined, .undefined, .undefined⟩

/-- The amount as the alert prints it: `(paymentData.amount/100).toFixed(2)`. -/
def alertAmount (B : Builtins) (paymentData : PaymentData) : Except JSError String := do
  let amount ← paymentData.amount.toNumber B
  pure ((amount.divNat 100).toFixed2 B)

/-- The constant `subject` of `sendGmailAlert` (line 40). -/
def alertSubject (B : Builtins) (paymentData : PaymentData) : Except JSError String := do
  let email ← paymentData.customer_email.toStr B
  pure ("Payment Failed: " ++ email)

/-- The constant `body` of `sendGmailAlert` (line 41); the substitutions of
the template are converted from left to right. -/
def alertBody (B : Builtins) (paymentData : PaymentData) : Except JSError String := do
  let id ← paymentData.payment_id.toStr B
  let amount ← alertAmount B paymentData
  let reason ← paymentData.failure_message.toStr B
  pure ("Payment ID: " ++ id ++ "\nAmount: $" ++ amount ++ "\nReason: " ++ reason)

/-- The recipient `process.env.ALERT_EMAIL || 'admin@example.com'`. -/
def alertRecipient (env : Env) : String :=
  match env.ALERT_EMAIL with
  | some a => if a = "" then "admin@example.com" else a
  | none => "admin@example.com"

/-- The constant `message` of `sendGmailAlert`: the header lines, an empty
line and the body, joined by newlines; the subject is built first, then the
body. -/
def alertMessage (B : Builtins) (env : Env) (paymentData : PaymentData) :
    Except JSError String := do
  let subject ← alertSubject B paymentData
  let body ← alertBody B paymentData
  pure ("\n".intercalate
    ["Content-Type: text/plain; charset=\"UTF-8\"",
     "MIME-Version: 1.0",
     "To: " ++ alertRecipient env,
     "Subject: " ++ subject,
     "",
     body])

/-- The function `sendGmailAlert(paymentData)`; `send` is the outcome of the
Gmail call and `now` the timestamp `addLog` reads. Whatever the `try` block
throws, building the message included, is caught and logged. -/
def sendGmailAlert (B : Builtins) (env : Env) (paymentData : PaymentData)
    (send : GmailOutcome) (now : String) (w : World) : Completion Unit :=
  tryCatch
    (match alertMessage B env paymentData with
      | .error e => .throw e w
      | .ok message =>
        match gmailSend "me" (encodeMessage message) send w with
        | .throw e w1 => .throw e w1
        | .normal _ w1 =>
          match paymentData.payment_id.toStr B with
          | .error e => .throw e w1
          | .ok id => .normal () (addLog now ("Alert sent for " ++ id) w1))
    (fun error w1 => .normal () (addLog now ("Gmail error: " ++ error.message) w1))

/-- The row `addToAirtable` hands to `table.create`; `paymentData.amount / 100`
converts the amount to a number. -/
def airtableFields (B : Builtins) (paymentData : PaymentData) : Except JSError Fields := do
  let amount ← paymentData.amount.toNumber B
  pure
    [("Payment ID", paymentData.payment_id),
     ("Customer Email", paymentData.customer_email),
     ("Amount", .num (amount.divNat 100)),
     ("Currency", paymentData.currency),
     ("Failure Code", paymentData.failure_code),
     ("Failure Message", paymentData.failure_message),
     ("Failed At", paymentData.failed_at),
     ("Status", .str "New")]

/-- The function `addToAirtable(paymentData)`; `create` is the outcome of the
Airtable call and `now` the timestamp `addLog` reads. Building the row throws
before the call when the amount cannot be converted; reading `record[0].id` of
an empty result throws after it; both are caught and logged. -/
def addToAirtable (B : Builtins) (paymentData : PaymentData)
    (create : AirtableOutcome) (now : String) (w : World) : Completion Unit :=
  tryCatch
    (match airtableFields B paymentData with
      | .error e => .throw e w
      | .ok fields =>
        match tableCreate "Failed Payments" [fields] create w with
        | .throw e w1 => .throw e w1
        | .normal record w1 =>
          match record with
          | r :: _ => .normal () (addLog now ("Added to Airtable: " ++ r.id) w1)
          | [] => .throw (typeErrorRead "undefined" .id) w1)
    (fun error w1 => .normal () (addLog now ("Airtable error: " ++ error.message) w1))

/-! ## The webhook -/

/-- The event type the program acts on. -/
def paymentFailed : String := "payment_intent.payment_failed"

/-- Lines 88 to 101 of `processFailedPayment`: the value of `paymentData` when
the sinks are called, or the exception the construction throws. The
properties are evaluated in the order of the object literal. -/
def normalizeEvent (B : Builtins) (event : JSVal) : Except JSError PaymentData := do
  let type ← event.getProp .type
  if type.isStr paymentFailed then
    let data ← event.getProp .data
    let pi ← data.getProp .object
    let id ← pi.getProp .id
    let receipt_email ← pi.getProp .receipt_email
    let amount ← pi.getProp .amount
    let currency ← pi.getProp .currency
    let error1 ← pi.getProp .last_payment_error
    let error2 ← pi.getProp .last_payment_error
    let created ← event.getProp .created
    let failed_at ← dateISOString B created
    pure
      { payment_id := id
        customer_email := receipt_email.orElse (.str "Unknown")
        amount := amount
        currency := currency
        failure_code := (error1.getOpt .code).orElse (.str "unknown")
        failure_message := (error2.getOpt .message).orElse (.str "Payment failed")
        failed_at := .str failed_at }
  else
    pure PaymentData.empty

/-- The outcomes of the external calls and clock readings of one request. -/
structure Externals where
  send : GmailOutcome
  create : AirtableOutcome
  nowGmail : String
  nowAirtable : String

/-- The function `processFailedPayment(event)`. -/
def processFailedPayment (B : Builtins) (env : Env) (event : JSVal) (x : Externals)
    (w : World) : Completion Unit :=
  match normalizeEvent B event with
  | .error e => .throw e w
  | .ok paymentData =>
    match sendGmailAlert B env paymentData x.send x.nowGmail w with
    | .throw e w1 => .throw e w1
    | .normal _ w1 => addToAirtable B paymentData x.create x.nowAirtable w1

/-- The body of an HTTP response: text (`res.send`) or JSON (`res.json`). -/
inductive Body where
  | text (s : String)
  | json (v : JSVal)

/-- The number of Gmail send attempts in a trace. -/
def gmailAttempts (calls : List ExtCall) : Nat :=
  (calls.filter (fun c => match c with | .gmailSend _ _ => true | _ => false)).length

/-- The number of Airtable create attempts in a trace. -/
def airtableAttempts (calls : List ExtCall) : Nat :=
  (calls.filter (fun c => match c with | .airtableCreate _ _ => true | _ => false)).length

/-- An HTTP response. -/
structure Response where
  status : Nat
  body : Body

/-- How a route handler ends: it sends a response, or its promise rejects
without one having been sent. -/
inductive HandlerResult where
  | responded (r : Response) (w : World)
  | rejected (e : JSError) (w : World)

/-- The response sent, if any. -/
def HandlerResult.response : HandlerResult → Option Response
  | .responded r _ => some r
  | .rejected _ _ => none

/-- The state the handler leaves. -/
def HandlerResult.world : HandlerResult → World
  | .responded _ w => w
  | .rejected _ w => w

/-- The acknowledgement `res.json({ received: true })`. -/
def received : Response := ⟨200, .json (.obj [("received", .bool true)])⟩

/-! ### The request and the body parsers (lines 26 and 27) -/

/-- An inbound request to `POST /webhook/stripe`: whether it announces a
body, whether its `Content-Type` is `application/json` (the type both parsers
are set to), the bytes of its body, and its `stripe-signature` header. -/
structure Request where
  hasBody : Bool
  jsonType : Bool
  rawBody : String
  signature : Option String

/-- The value of `req.body`: a JavaScript value, or a `Buffer`. -/
inductive ReqBody where
  | value (v : JSVal)
  | buffer (bytes : String)

/-- What the strict JSON parser of `express.json()` accepts: an object or an
array. -/
inductive JsonDoc where
  | object (ps : List (String × JSVal))
  | array (xs : List JSVal)

/-- The value a parsed document stands for. -/
def JsonDoc.toVal : JsonDoc → JSVal
  | .object ps => .obj ps
  | .array xs => .arr xs

/-- What is left uninterpreted of the body parsers of Express: how
`express.json()` reads and parses a body (`none` when it passes an error to
Express: bad syntax, neither object nor array, charset, size), how
`express.raw()` reads one, and whether a parser that runs first sets
`req.body = req.body || {}` (body-parser 1) or leaves it alone
(body-parser 2). -/
structure BodyParser where
  readJson : String → Option JsonDoc
  readRaw : String → Option String
  initBody : Bool

/-- What the parsers keep on the request: `req.body` and the mark `req._body`
that a body has been parsed. -/
structure ReqState where
  body : ReqBody
  parsed : Bool

/-- The request before any parser: `req.body` is `undefined`. -/
def ReqState.init : ReqState := ⟨.value .undefined, false⟩

/-- The assignment `req.body = req.body || {}` of body-parser 1. -/
def initReqBody (P : BodyParser) (st : ReqState) : ReqState :=
  if P.initBody then
    match st.body with
    | .value v => if v.truthy then st else { st with body := .value (.obj []) }
    | .buffer _ => st
  else st

/-- The middleware `express.json()` (line 26): it skips a request already
parsed, without a body or of another type; otherwise it parses the body. The
result is `none` when it passes an error to Express. -/
def expressJson (P : BodyParser) (req : Request) (st : ReqState) : Option ReqState :=
  if st.parsed then some st
  else if !req.hasBody then some (initReqBody P st)
  else if !req.jsonType then some (initReqBody P st)
  else
    match P.readJson req.rawBody with
    | none => none
    | some doc => some ⟨.value doc.toVal, true⟩

/-- The middleware `express.raw({ type: 'application/json' })` (line 27): it
skips a request already parsed, without a body or of another type; otherwise
it puts the bytes of the body in a `Buffer`. -/
def expressRaw (P : BodyParser) (req : Request) (st : ReqState) : Option ReqState :=
  if st.parsed then some st
  else if !req.hasBody then some (initReqBody P st)
  else if !req.jsonType then some (initReqBody P st)
  else
    match P.readRaw req.rawBody with
    | none => none
    | some bytes => some ⟨.buffer bytes, true⟩

/-- The value of `req.body` when the route handler runs: `express.json()`
first, then `express.raw()`, in the order of the `app.use` calls; `none` when
a parser passes an error to Express and the handler does not run. -/
def bodyParsers (P : BodyParser) (req : Request) : Option ReqBody :=
  match expressJson P req ReqState.init with
  | none => none
  | some st1 =>
    match expressRaw P req st1 with
    | none => none
    | some st2 => some st2.body

/-! ### Signature verification (line 112) -/

/-- What is left uninterpreted of `stripe.webhooks.constructEvent`: on a
payload that is a string or a `Buffer`, the check of the signature header
against the secret followed by `JSON.parse` (`verify`: the event, or the error
thrown); the error thrown on a payload that is an object or `undefined`
(`payloadError`); and the outcome on any other payload (`other`). -/
structure Stripe where
  verify : String → Option String → Option String → Except JSError JSVal
  payloadError : JSVal → Option String → JSError
  other : JSVal → Option String → Option String → Except JSError JSVal

/-- The call `stripe.webhooks.constructEvent(payload, header, secret)`. The
library signs and parses the payload as text, so it needs the bytes that
were sent. A payload that is an object or `undefined` always makes it throw:
as text it is `"[object Object]"` or `"undefined"`, which is not JSON (or it
has no text at all), and recent versions refuse it outright. -/
def constructEvent (S : Stripe) (payload : ReqBody) (header secret : Option String) :
    Except JSError JSVal :=
  match payload with
  | .buffer bytes => S.verify bytes header secret
  | .value (.str s) => S.verify s header secret
  | .value (.obj ps) => .error (S.payloadError (.obj ps) header)
  | .value .undefined => .error (S.payloadError .undefined header)
  | .value v => S.other v header secret

/-- The handler of `POST /webhook/stripe` (lines 107 to 122), run on the
`req.body` the parsers left and the header `stripe-signature`. -/
def webhookStripe (B : Builtins) (S : Stripe) (env : Env) (body : ReqBody)
    (sig : Option String) (x : Externals) (w : World) : HandlerResult :=
  match constructEvent S body sig env.STRIPE_WEBHOOK_SECRET with
  | .error err => .responded ⟨400, .text ("Webhook Error: " ++ err.message)⟩ w
  | .ok event =>
    match event.getProp .type with
    | .error e => .rejected e w
    | .ok type =>
      if type.isStr paymentFailed then
        match processFailedPayment B env event x w with
        | .throw e w1 => .rejected e w1
        | .normal _ w1 => .responded received w1
      else .responded received w

/-- The route `POST /webhook/stripe` as the application serves it: the body
parsers, then the handler; `none` when a parser passes an error to Express
and the handler does not run. -/
def postWebhookStripe (B : Builtins) (P : BodyParser) (S : Stripe) (env : Env) (req : Request)
    (x : Externals) (w : World) : Option HandlerResult :=
  match bodyParsers P req with
  | none => none
  | some body => some (webhookStripe B S env body req.signature x w)

/-! ## Concrete inputs -/

/-- An arbitrary interpretation of the uninterpreted conversions, to evaluate
the model at concrete inputs. -/
def sampleBuiltins : Builtins := ⟨fun _ => "0", fun _ => .nan, fun _ => "2023-11-14T22:13:20.000Z"⟩

/-- An environment without `ALERT_EMAIL`. -/
def sampleEnv : Env := ⟨none, some "whsec_test"⟩

/-- External calls that all succeed. -/
def sampleExternals : Externals := ⟨.resolved, .resolved [⟨"rec1"⟩], "t1", "t2"⟩

/-- The number `n` written as a JSON integer literal, for `n < 2 ^ 53`. -/
def JSVal.int (n : Nat) : JSVal := .num (.fin false n 0)

/-- An amount of `a` minor units written in major units with two decimals, as
the specification words it: the decimal digits of `a / 100`, a point, then
`a % 100` padded with a zero to two digits. -/
def twoDecimals (a : Nat) : String :=
  Nat.repr (a / 100) ++ "." ++ (if a % 100 < 10 then "0" else "") ++ Nat.repr (a % 100)

/-- The record `POST /test` builds, at a fixed time: an amount of 5000. -/
def testData : PaymentData :=
  ⟨.str "test_1700000000000", .str "test@example.com", .int 5000, .str "usd",
    .str "card_declined", .str "Test failure", .str "2023-11-14T22:13:20.000Z"⟩

/-- A record whose amount is the integer `7036874417766401`, which is below
`2 ^ 53` and so is a double. -/
def largePayment : PaymentData :=
  ⟨.str "pi_4", .str "jo@example.com", .int 7036874417766401, .str "usd",
    .str "card_declined", .str "Your card was declined.", .str "2023-11-14T22:13:20.000Z"⟩

/-- A record whose amount is the object `JSON.parse` makes of
`{"toString":1}`. -/
def oddPayment : PaymentData :=
  ⟨.str "pi_9", .str "jo@example.com", .obj [("toString", .int 1)], .str "usd",
    .str "card_declined", .str "Your card was declined.", .str "2023-11-14T22:13:20.000Z"⟩

/-- The properties of a payment-failed event as Stripe sends it, with every
field the program reads. -/
def eventCompleteProps : List (String × JSVal) :=
  [("id", .str "evt_1"), ("type", .str "payment_intent.payment_failed"),
    ("created", .int 1700000000),
    ("data", .obj [("object", .obj [("id", .str "pi_1"), ("amount", .int 5000),
      ("currency", .str "usd"), ("receipt_email", .str "jo@example.com"),
      ("last_payment_error", .obj [("code", .str "card_declined"),
        ("message", .str "Your card was declined.")])])])]

/-- A payment-failed event as Stripe sends it. -/
def eventComplete : JSVal := .obj eventCompleteProps

/-- A payment-failed event without the optional fields `receipt_email` and
`last_payment_error`. -/
def eventMinimal : JSVal :=
  .obj [("type", .str "payment_intent.payment_failed"), ("created", .int 1700000000),
    ("data", .obj [("object", .obj [("id", .str "pi_2"), ("amount", .int 1250),
      ("currency", .str "eur")])])]

/-- A payment-failed event without `created`. -/
def eventNoCreated : JSVal :=
  .obj [("type", .str "payment_intent.payment_failed"),
    ("data", .obj [("object", .obj [("id", .str "pi_3"), ("amount", .int 5000),
      ("currency", .str "usd")])])]

/-- A payment-failed event whose `data.object` is `null`. -/
def eventNullObject : JSVal :=
  .obj [("type", .str "payment_intent.payment_failed"), ("created", .int 1700000000),
    ("data", .obj [("object", .null)])]

/-- The properties of an event of another type. -/
def eventOtherProps : List (String × JSVal) :=
  [("id", .str "evt_2"), ("type", .str "charge.succeeded"), ("created", .int 1700000000),
    ("data", .obj [("object", .obj [("id", .str "ch_1")])])]

/-- An event of another type. -/
def eventOther : JSVal := .obj eventOtherProps

/-- The bytes Stripe sends for `eventComplete`. -/
def rawComplete : String :=
  "\x7b\"id\":\"evt_1\",\"type\":\"payment_intent.payment_failed\",\"created\":1700000000," ++
  "\"data\":\x7b\"object\":\x7b\"id\":\"pi_1\",\"amount\":5000,\"currency\":\"usd\"," ++
  "\"receipt_email\":\"jo@example.com\",\"last_payment_error\":\x7b\"code\":\"card_declined\"," ++
  "\"message\":\"Your card was declined.\"\x7d\x7d\x7d\x7d"

/-- The bytes Stripe sends for `eventOther`. -/
def rawOther : String :=
  "\x7b\"id\":\"evt_2\",\"type\":\"charge.succeeded\",\"created\":1700000000," ++
  "\"data\":\x7b\"object\":\x7b\"id\":\"ch_1\"\x7d\x7d\x7d"

/-- The signature header that goes with `rawComplete`. -/
def sigComplete : String := "t=1700000000,v1=3f5a9c"

/-- The signature header that goes with `rawOther`. -/
def sigOther : String := "t=1700000000,v1=b81e07"

/-- The error of the library for a signature that does not match. -/
def signatureMismatch : JSError :=
  ⟨"StripeSignatureVerificationError",
    "No signatures found matching the expected signature for payload."⟩

/-- The error of the library for a payload that is not the raw body. -/
def payloadNotRaw : JSError :=
  ⟨"StripeSignatureVerificationError",
    "Webhook payload must be provided as a string or a Buffer."⟩

/-- A stand-in for the library and the secret `whsec_test`: the two sample
bodies carry a valid signature, every other pair is a mismatch. -/
def sampleStripe : Stripe where
  verify := fun payload header secret =>
    if secret = some "whsec_test" ∧ payload = rawComplete ∧ header = some sigComplete then
      .ok eventComplete
    else if secret = some "whsec_test" ∧ payload = rawOther ∧ header = some sigOther then
      .ok eventOther
    else .error signatureMismatch
  payloadError := fun _ _ => payloadNotRaw
  other := fun _ _ _ => .error signatureMismatch

/-- A stand-in for the body parsers: it parses the two sample bodies and
rejects every other. -/
def sampleParser : BodyParser where
  readJson := fun bytes =>
    if bytes = rawComplete then some (.object eventCompleteProps)
    else if bytes = rawOther then some (.object eventOtherProps)
    else none
  readRaw := fun bytes => some bytes
  initBody := true

/-- The delivery of `eventComplete` with its valid signature. -/
def deliveryComplete : Request := ⟨true, true, rawComplete, some sigComplete⟩

/-- The delivery of `eventOther` with its valid signature. -/
def deliveryOther : Request := ⟨true, true, rawOther, some sigOther⟩

/-! ## The log keeps the most recent entries -/

theorem sliceLast_of_length_le {α : Type} (n : Nat) (xs : List α) (h : xs.length ≤ n) :
    sliceLast n xs = xs := by
  unfold sliceLast
  rw [Nat.sub_eq_zero_of_le h, List.drop_zero]

theorem length_sliceLast {α : Type} (n : Nat) (xs : List α) :
    (sliceLast n xs).length = min xs.length n := by
  unfold sliceLast
  rw [List.length_drop]
  omega

theorem sliceLast_append_sliceLast {α : Type} (n : Nat) (xs ys : List α) :
    sliceLast n (sliceLast n xs ++ ys) = sliceLast n (xs ++ ys) := by
  rcases Nat.le_total xs.length n with h | h
  · rw [sliceLast_of_length_le n xs h]
  · have hlen : (sliceLast n xs).length = n := by rw [length_sliceLast]; omega
    unfold sliceLast at hlen ⊢
    rw [List.length_append, hlen, List.length_append]
    have e1 : xs.length + ys.length - n = ys.length + (xs.length - n) := by omega
    have e2 : n + ys.length - n = ys.length := by omega
    have e3 : List.drop (ys.length + (xs.length - n)) (xs ++ ys)
        = List.drop ys.length (List.drop (xs.length - n) (xs ++ ys)) := by
      simp only [List.drop_drop]
      congr 1
      omega
    rw [e1, e2, e3, List.drop_append_of_le_length (Nat.sub_le _ _)]

theorem sliceLast_sliceLast {α : Type} (n m : Nat) (h : n ≤ m) (xs : List α) :
    sliceLast n (sliceLast m xs) = sliceLast n xs := by
  have hlen := length_sliceLast m xs
  unfold sliceLast at hlen ⊢
  rw [hlen, List.drop_drop]
  congr 1
  omega

theorem addLog_logs (t m : String) (w : World) :
    (addLog t m w).logs = sliceLast 50 (w.logs ++ [⟨t, m⟩]) := by
  unfold addLog
  simp only
  split
  · rfl
  · rw [sliceLast_of_length_le]
    omega

theorem addLog_calls (t m : String) (w : World) : (addLog t m w).calls = w.calls := rfl

theorem addLogs_logs (es : List LogEntry) (w : World) (h : w.logs.length ≤ 50) :
    (addLogs es w).logs = sliceLast 50 (w.logs ++ es) := by
  induction es generalizing w with
  | nil =>
    simp only [addLogs, List.foldl_nil, List.append_nil]
    rw [sliceLast_of_length_le 50 _ h]
  | cons e es ih =>
    have hstep : addLogs (e :: es) w = addLogs es (addLog e.timestamp e.message w) := rfl
    have hle : (addLog e.timestamp e.message w).logs.length ≤ 50 := by
      rw [addLog_logs, length_sliceLast]
      omega
    rw [hstep, ih _ hle, addLog_logs, sliceLast_append_sliceLast, List.append_assoc]
    rfl

/-- C4: after any sequence of `addLog` calls on the empty log, the log is the
last `min n 50` entries appended, in the order of the calls; so it never
holds more than 50 entries, and on a log that holds 50 entries one more call
drops exactly the oldest entry and puts the new one last. -/
theorem addLog_keeps_last_fifty (es : List LogEntry) :
    (addLogs es World.init).logs = es.drop (es.length - 50)
      ∧ (addLogs es World.init).logs.length = min es.length 50
      ∧ (addLogs es World.init).logs.length ≤ 50
      ∧ ∀ t m : String, es.length = 50 →
          (addLog t m (addLogs es World.init)).logs = es.tail ++ [⟨t, m⟩] := by
  have h0 : (addLogs es World.init).logs = sliceLast 50 es := by
    rw [addLogs_logs es World.init (by simp [World.init])]
    simp [World.init]
  refine ⟨h0, ?_, ?_, ?_⟩
  · rw [h0, length_sliceLast]
  · rw [h0, length_sliceLast]
    omega
  · intro t m hlen
    rw [addLog_logs, h0, sliceLast_append_sliceLast]
    unfold sliceLast
    rw [List.length_append, hlen]
    cases es with
    | nil => simp at hlen
    | cons e es => rfl

/-- C4, at a concrete input: fifty entries, then a fifty-first. -/
theorem addLog_keeps_last_fifty_witness :
    ((List.range 50).map (fun i => LogEntry.mk "t" (Nat.repr i))).length = 50
      ∧ (addLog "t51" "m51"
          (addLogs ((List.range 50).map (fun i => LogEntry.mk "t" (Nat.repr i))) World.init)).logs
        = ((List.range 50).map (fun i => LogEntry.mk "t" (Nat.repr i))).tail ++ [⟨"t51", "m51"⟩] :=
  ⟨by simp, (addLog_keeps_last_fifty _).2.2.2 "t51" "m51" (by simp)⟩

/-- C8: after any sequence of `addLog` calls on the empty log, `GET /logs`
returns the last `min n 20` entries appended, in the order of the calls; after
60 calls these are the entries 41 to 60. -/
theorem getLogs_returns_last_twenty (es : List LogEntry) :
    getLogs (addLogs es World.init) = es.drop (es.length - 20)
      ∧ (getLogs (addLogs es World.init)).length = min es.length 20
      ∧ (es.length = 60 → getLogs (addLogs es World.init) = es.drop 40) := by
  have h0 : getLogs (addLogs es World.init) = sliceLast 20 es := by
    unfold getLogs
    rw [addLogs_logs es World.init (by simp [World.init])]
    simp only [World.init, List.nil_append]
    exact sliceLast_sliceLast 20 50 (by decide) es
  refine ⟨h0, ?_, ?_⟩
  · rw [h0, length_sliceLast]
  · intro hlen
    rw [h0]
    unfold sliceLast
    rw [hlen]

/-- C8, at a concrete input: sixty entries. -/
theorem getLogs_returns_last_twenty_witness :
    ((List.range 60).map (fun i => LogEntry.mk "t" (Nat.repr i))).length = 60
      ∧ getLogs (addLogs ((List.range 60).map (fun i => LogEntry.mk "t" (Nat.repr i))) World.init)
        = ((List.range 60).map (fun i => LogEntry.mk "t" (Nat.repr i))).drop 40 :=
  ⟨by simp, (getLogs_returns_last_twenty _).2.2 (by simp)⟩

/-! ## Property access and normalization -/

theorem nullish_eq_false_iff (v : JSVal) : v.nullish = false ↔ v ≠ .undefined ∧ v ≠ .null := by
  cases v <;> simp [JSVal.nullish]

theorem getProp_of_not_nullish (v : JSVal) (k : Key) (h : v.nullish = false) :
    v.getProp k = .ok (v.getOpt k) := by
  cases v <;> simp_all [JSVal.nullish, JSVal.getProp, JSVal.getOpt]

theorem getProp_of_nullish (v : JSVal) (k : Key) (h : v.nullish = true) :
    ∃ e, v.getProp k = .error e := by
  cases v <;> simp_all [JSVal.nullish, JSVal.getProp]

theorem nullish_of_getProp_ok (v r : JSVal) (k : Key) (h : v.getProp k = .ok r) :
    v.nullish = false := by
  cases v <;> simp_all [JSVal.nullish, JSVal.getProp]

theorem orElse_str (s : String) (d : JSVal) (hs : s ≠ "") :
    (JSVal.str s).orElse d = .str s := by
  simp [JSVal.orElse, JSVal.truthy, hs]

theorem isStr_iff (v : JSVal) (s : String) : v.isStr s = true ↔ v = .str s := by
  cases v <;> simp [JSVal.isStr]

theorem normalizeEvent_eq (B : Builtins) (event data pi created : JSVal) (n : JSNum) (t : Int)
    (htype : event.getProp .type = .ok (.str paymentFailed))
    (hdata : event.getProp .data = .ok data) (hpi : data.getProp .object = .ok pi)
    (hnn : pi.nullish = false) (hcreated : event.getProp .created = .ok created)
    (hn : created.toNumber B = .ok n) (ht : timeClip (n.mulNat 1000) = some t) :
    normalizeEvent B event = .ok
      { payment_id := pi.getOpt .id
        customer_email := (pi.getOpt .receipt_email).orElse (.str "Unknown")
        amount := pi.getOpt .amount
        currency := pi.getOpt .currency
        failure_code := ((pi.getOpt .last_payment_error).getOpt .code).orElse (.str "unknown")
        failure_message :=
          ((pi.getOpt .last_payment_error).getOpt .message).orElse (.str "Payment failed")
        failed_at := .str (B.isoString t) } := by
  unfold normalizeEvent
  simp [htype, hdata, hpi, hcreated, getProp_of_not_nullish pi _ hnn, dateISOString, hn, ht,
    JSVal.isStr, bind, Except.bind, pure, Except.pure]

theorem normalizeEvent_ok_inv (B : Builtins) (event : JSVal) (pd : PaymentData)
    (htype : event.getProp .type = .ok (.str paymentFailed))
    (h : normalizeEvent B event = .ok pd) :
    ∃ data pi created n t, event.getProp .data = .ok data ∧ data.getProp .object = .ok pi
      ∧ pi.nullish = false ∧ event.getProp .created = .ok created
      ∧ created.toNumber B = .ok n ∧ timeClip (n.mulNat 1000) = some t := by
  have hev := nullish_of_getProp_ok _ _ _ htype
  have hdata := getProp_of_not_nullish event .data hev
  have hcreated := getProp_of_not_nullish event .created hev
  cases hd : (event.getOpt .data).nullish with
  | true =>
    obtain ⟨e, he⟩ := getProp_of_nullish _ .object hd
    unfold normalizeEvent at h
    simp [htype, hdata, he, JSVal.isStr, bind, Except.bind] at h
  | false =>
    have hpi := getProp_of_not_nullish _ .object hd
    cases hp : ((event.getOpt .data).getOpt .object).nullish with
    | true =>
      obtain ⟨e, he⟩ := getProp_of_nullish _ .id hp
      unfold normalizeEvent at h
      simp [htype, hdata, hpi, he, JSVal.isStr, bind, Except.bind] at h
    | false =>
      cases hn : (event.getOpt .created).toNumber B with
      | error e =>
        unfold normalizeEvent at h
        simp [htype, hdata, hpi, hcreated, getProp_of_not_nullish _ _ hp, dateISOString, hn,
          JSVal.isStr, bind, Except.bind] at h
      | ok n =>
        cases ht : timeClip (n.mulNat 1000) with
        | none =>
          unfold normalizeEvent at h
          simp [htype, hdata, hpi, hcreated, getProp_of_not_nullish _ _ hp, dateISOString, hn,
            ht, JSVal.isStr, bind, Except.bind] at h
        | some t => exact ⟨_, _, _, n, t, hdata, hpi, hp, hcreated, hn, ht⟩

/-- C5 (amended): on a payment-failed event, the construction of `paymentData`
returns a record exactly when `event.data.object` is neither `undefined` nor
`null` and `event.created * 1000` evaluates to a valid time value; no other
field, absent or malformed, makes it raise. -/
theorem normalizeEvent_succeeds_iff (B : Builtins) (event : JSVal)
    (htype : event.getProp .type = .ok (.str paymentFailed)) :
    (∃ pd, normalizeEvent B event = .ok pd) ↔
      ∃ data pi created n t, event.getProp .data = .ok data ∧ data.getProp .object = .ok pi
        ∧ pi ≠ .undefined ∧ pi ≠ .null ∧ event.getProp .created = .ok created
        ∧ created.toNumber B = .ok n ∧ timeClip (n.mulNat 1000) = some t := by
  constructor
  · rintro ⟨pd, h⟩
    obtain ⟨data, pi, created, n, t, h1, h2, h3, h4, h5, h6⟩ :=
      normalizeEvent_ok_inv B event pd htype h
    exact ⟨data, pi, created, n, t, h1, h2, ((nullish_eq_false_iff pi).mp h3).1,
      ((nullish_eq_false_iff pi).mp h3).2, h4, h5, h6⟩
  · rintro ⟨data, pi, created, n, t, h1, h2, h3, h4, h5, h6, h7⟩
    exact ⟨_, normalizeEvent_eq B event data pi created n t htype h1 h2
      ((nullish_eq_false_iff pi).mpr ⟨h3, h4⟩) h5 h6 h7⟩

/-- C5 (amended), at a concrete input: an event without the optional fields. -/
theorem normalizeEvent_succeeds_iff_witness :
    eventMinimal.getProp .type = .ok (.str paymentFailed)
      ∧ ∃ pd, normalizeEvent sampleBuiltins eventMinimal = .ok pd :=
  ⟨rfl, (normalizeEvent_succeeds_iff sampleBuiltins eventMinimal rfl).mpr
    ⟨_, _, _, _, _, rfl, rfl, fun h => JSVal.noConfusion h, fun h => JSVal.noConfusion h,
      rfl, rfl, rfl⟩⟩

/-- C5 as stated fails: a payment-failed event without `created` makes the
construction throw a `RangeError`, and one whose `data.object` is `null` a
`TypeError`. -/
theorem normalizeEvent_raises :
    eventNoCreated.getProp .type = .ok (.str paymentFailed)
      ∧ normalizeEvent sampleBuiltins eventNoCreated = .error ⟨"RangeError", "Invalid time value"⟩
      ∧ eventNullObject.getProp .type = .ok (.str paymentFailed)
      ∧ normalizeEvent sampleBuiltins eventNullObject = .error (typeErrorRead "null" .id) :=
  ⟨rfl, rfl, rfl, rfl⟩

/-- C6: in the record built from a payment-failed event, `payment_id`,
`amount` and `currency` are `pi.id`, `pi.amount` and `pi.currency` unchanged
(`pi.getOpt k` is the value of `pi.k`, `undefined` when the property is
absent); `customer_email`, `failure_code` and `failure_message` are the
upstream value when it converts to `true`, in particular when it is a
non-empty string, and `"Unknown"`, `"unknown"` and `"Payment failed"` when
`receipt_email`, or `last_payment_error` or its `code` or `message`, is
absent. -/
theorem normalizeEvent_defaults (B : Builtins) (event data pi : JSVal) (pd : PaymentData)
    (htype : event.getProp .type = .ok (.str paymentFailed))
    (hdata : event.getProp .data = .ok data) (hpi : data.getProp .object = .ok pi)
    (h : normalizeEvent B event = .ok pd) :
    (pi.getProp .id = .ok pd.payment_id ∧ pi.getProp .amount = .ok pd.amount
      ∧ pi.getProp .currency = .ok pd.currency)
    ∧ (pd.customer_email =
        if (pi.getOpt .receipt_email).truthy then pi.getOpt .receipt_email else .str "Unknown")
    ∧ (pd.failure_code =
        if ((pi.getOpt .last_payment_error).getOpt .code).truthy
        then (pi.getOpt .last_payment_error).getOpt .code else .str "unknown")
    ∧ (pd.failure_message =
        if ((pi.getOpt .last_payment_error).getOpt .message).truthy
        then (pi.getOpt .last_payment_error).getOpt .message else .str "Payment failed")
    ∧ (pi.getOpt .receipt_email = .undefined → pd.customer_email = .str "Unknown")
    ∧ (pi.getOpt .last_payment_error = .undefined
          ∨ (pi.getOpt .last_payment_error).getOpt .code = .undefined →
        pd.failure_code = .str "unknown")
    ∧ (pi.getOpt .last_payment_error = .undefined
          ∨ (pi.getOpt .last_payment_error).getOpt .message = .undefined →
        pd.failure_message = .str "Payment failed")
    ∧ (∀ s : String, s ≠ "" →
        (pi.getOpt .receipt_email = .str s → pd.customer_email = .str s)
        ∧ ((pi.getOpt .last_payment_error).getOpt .code = .str s → pd.failure_code = .str s)
        ∧ ((pi.getOpt .last_payment_error).getOpt .message = .str s →
            pd.failure_message = .str s)) := by
  obtain ⟨data', pi', created, n, t, h1, h2, h3, h4, hn, h5⟩ :=
    normalizeEvent_ok_inv B event pd htype h
  rw [hdata] at h1
  cases h1
  rw [hpi] at h2
  cases h2
  have heq := normalizeEvent_eq B event data pi created n t htype hdata hpi h3 h4 hn h5
  rw [h] at heq
  cases heq
  refine ⟨⟨getProp_of_not_nullish _ _ h3, getProp_of_not_nullish _ _ h3,
    getProp_of_not_nullish _ _ h3⟩, rfl, rfl, rfl, ?_, ?_, ?_, ?_⟩
  · intro h0
    rw [h0]
    rfl
  · rintro (h0 | h0) <;> rw [h0] <;> rfl
  · rintro (h0 | h0) <;> rw [h0] <;> rfl
  · intro s hs
    refine ⟨?_, ?_, ?_⟩ <;> intro h0 <;> rw [h0] <;> exact orElse_str s _ hs

/-- C6, at a concrete input: an event with every field present. -/
theorem normalizeEvent_defaults_witness :
    ∃ (pd : PaymentData) (pi : JSVal), normalizeEvent sampleBuiltins eventComplete = .ok pd
      ∧ pi.getProp .id = .ok pd.payment_id
      ∧ pd.customer_email =
        if (pi.getOpt .receipt_email).truthy then pi.getOpt .receipt_email else .str "Unknown" :=
  ⟨_, _, rfl,
    (normalizeEvent_defaults sampleBuiltins eventComplete _ _ _ rfl rfl rfl rfl).1.1,
    (normalizeEvent_defaults sampleBuiltins eventComplete _ _ _ rfl rfl rfl rfl).2.1⟩

/-! ## The sinks -/

theorem toStr_str (B : Builtins) (s : String) : (JSVal.str s).toStr B = .ok s := by
  simp [JSVal.toStr]

theorem toNumber_num (B : Builtins) (n : JSNum) : (JSVal.num n).toNumber B = .ok n := rfl

theorem alertMessage_ok_inv (B : Builtins) (env : Env) (pd : PaymentData) (message : String)
    (h : alertMessage B env pd = .ok message) : ∃ id, pd.payment_id.toStr B = .ok id := by
  cases hid : pd.payment_id.toStr B with
  | ok id => exact ⟨id, rfl⟩
  | error e =>
    unfold alertMessage alertBody at h
    cases hs : alertSubject B pd <;> simp [hs, hid, bind, Except.bind] at h

theorem sendGmailAlert_of_message (B : Builtins) (env : Env) (pd : PaymentData)
    (message id : String) (now : String) (w : World)
    (hm : alertMessage B env pd = .ok message) (hid : pd.payment_id.toStr B = .ok id) :
    sendGmailAlert B env pd .resolved now w = .normal ()
        (addLog now ("Alert sent for " ++ id)
          { w with calls := w.calls ++ [.gmailSend "me" (encodeMessage message)] })
      ∧ ∀ error : JSError, sendGmailAlert B env pd (.rejected error) now w = .normal ()
        (addLog now ("Gmail error: " ++ error.message)
          { w with calls := w.calls ++ [.gmailSend "me" (encodeMessage message)] }) := by
  constructor
  · simp [sendGmailAlert, hm, hid, gmailSend, tryCatch]
  · intro error
    simp [sendGmailAlert, hm, gmailSend, tryCatch]

theorem sendGmailAlert_of_error (B : Builtins) (env : Env) (pd : PaymentData) (e : JSError)
    (send : GmailOutcome) (now : String) (w : World) (hm : alertMessage B env pd = .error e) :
    sendGmailAlert B env pd send now w
      = .normal () (addLog now ("Gmail error: " ++ e.message) w) := by
  simp [sendGmailAlert, hm, tryCatch]

theorem addToAirtable_of_fields (B : Builtins) (pd : PaymentData) (fields : Fields)
    (now : String) (w : World) (hf : airtableFields B pd = .ok fields) :
    (∀ (r : AirtableRecord) (rest : List AirtableRecord),
        addToAirtable B pd (.resolved (r :: rest)) now w = .normal ()
          (addLog now ("Added to Airtable: " ++ r.id)
            { w with calls := w.calls ++ [.airtableCreate "Failed Payments" [fields]] }))
      ∧ (∀ error : JSError, addToAirtable B pd (.rejected error) now w = .normal ()
          (addLog now ("Airtable error: " ++ error.message)
            { w with calls := w.calls ++ [.airtableCreate "Failed Payments" [fields]] }))
      ∧ addToAirtable B pd (.resolved []) now w = .normal ()
          (addLog now ("Airtable error: Cannot read properties of undefined (reading \x27id\x27)")
            { w with calls := w.calls ++ [.airtableCreate "Failed Payments" [fields]] }) := by
  refine ⟨?_, ?_, ?_⟩
  · intro r rest
    simp [addToAirtable, hf, tableCreate, tryCatch]
  · intro error
    simp [addToAirtable, hf, tableCreate, tryCatch]
  · simp [addToAirtable, hf, tableCreate, tryCatch]
    rfl

theorem addToAirtable_of_error (B : Builtins) (pd : PaymentData) (e : JSError)
    (create : AirtableOutcome) (now : String) (w : World) (hf : airtableFields B pd = .error e) :
    addToAirtable B pd create now w
      = .normal () (addLog now ("Airtable error: " ++ e.message) w) := by
  simp [addToAirtable, hf, tryCatch]

theorem sendGmailAlert_normal (B : Builtins) (env : Env) (pd : PaymentData) (send : GmailOutcome)
    (now : String) (w : World) :
    ∃ msg calls, sendGmailAlert B env pd send now w
      = .normal () (addLog now msg { w with calls := w.calls ++ calls }) := by
  cases hm : alertMessage B env pd with
  | error e =>
    refine ⟨"Gmail error: " ++ e.message, [], ?_⟩
    rw [sendGmailAlert_of_error B env pd e send now w hm, List.append_nil]
  | ok message =>
    obtain ⟨id, hid⟩ := alertMessage_ok_inv B env pd message hm
    obtain ⟨h1, h2⟩ := sendGmailAlert_of_message B env pd message id now w hm hid
    cases send with
    | resolved => exact ⟨_, _, h1⟩
    | rejected error => exact ⟨_, _, h2 error⟩

theorem addToAirtable_normal (B : Builtins) (pd : PaymentData) (create : AirtableOutcome)
    (now : String) (w : World) :
    ∃ msg calls, addToAirtable B pd create now w
      = .normal () (addLog now msg { w with calls := w.calls ++ calls }) := by
  cases hf : airtableFields B pd with
  | error e =>
    refine ⟨"Airtable error: " ++ e.message, [], ?_⟩
    rw [addToAirtable_of_error B pd e create now w hf, List.append_nil]
  | ok fields =>
    obtain ⟨h1, h2, h3⟩ := addToAirtable_of_fields B pd fields now w hf
    cases create with
    | resolved record =>
      cases record with
      | nil => exact ⟨_, _, h3⟩
      | cons r rest => exact ⟨_, _, h1 r rest⟩
    | rejected error => exact ⟨_, _, h2 error⟩

theorem typed_record_converts (B : Builtins) (env : Env) (pd : PaymentData)
    (id email reason : String) (n : JSNum)
    (hid : pd.payment_id = .str id) (hemail : pd.customer_email = .str email)
    (hreason : pd.failure_message = .str reason) (hn : pd.amount = .num n) :
    (∃ message, alertMessage B env pd = .ok message)
      ∧ pd.payment_id.toStr B = .ok id
      ∧ ∃ fields, airtableFields B pd = .ok fields := by
  refine ⟨?_, ?_, ?_⟩
  · simp [alertMessage, alertSubject, alertBody, alertAmount, hid, hemail, hreason, hn,
      toStr_str, toNumber_num, bind, Except.bind, pure, Except.pure]
  · rw [hid, toStr_str]
  · simp [airtableFields, hn, toNumber_num, bind, Except.bind, pure, Except.pure]

/-- C10: each sink returns normally whatever its external call does, after
exactly one `addLog`, for every record. When the message or the row can be
built, as it can for every record of the data model (`payment_id`,
`customer_email` and `failure_message` strings, `amount` a number), the sink
makes one attempt of its external call: `sendGmailAlert` logs
`"Alert sent for <payment_id>"` when the send resolves and
`"Gmail error: <message>"` when it rejects; `addToAirtable` logs
`"Added to Airtable: <id of the first created record>"` when the create
resolves and `"Airtable error: <message>"` when it rejects (also when the
create resolves with no record, the message then being that of the
`TypeError` of reading `record[0].id`). When building throws, the exception
is caught before the call and logged the same way, without an attempt. -/
theorem sinks_log_once_and_return (B : Builtins) (env : Env) (now : String) (w : World) :
    (∀ (pd : PaymentData) (send : GmailOutcome), ∃ msg calls,
        sendGmailAlert B env pd send now w
          = .normal () (addLog now msg { w with calls := w.calls ++ calls }))
    ∧ (∀ (pd : PaymentData) (create : AirtableOutcome), ∃ msg calls,
        addToAirtable B pd create now w
          = .normal () (addLog now msg { w with calls := w.calls ++ calls }))
    ∧ (∀ (pd : PaymentData) (message : String), alertMessage B env pd = .ok message →
        ∃ id, pd.payment_id.toStr B = .ok id
          ∧ sendGmailAlert B env pd .resolved now w = .normal ()
              (addLog now ("Alert sent for " ++ id)
                { w with calls := w.calls ++ [.gmailSend "me" (encodeMessage message)] })
          ∧ ∀ error : JSError, sendGmailAlert B env pd (.rejected error) now w = .normal ()
              (addLog now ("Gmail error: " ++ error.message)
                { w with calls := w.calls ++ [.gmailSend "me" (encodeMessage message)] }))
    ∧ (∀ (pd : PaymentData) (fields : Fields), airtableFields B pd = .ok fields →
        (∀ (r : AirtableRecord) (rest : List AirtableRecord),
            addToAirtable B pd (.resolved (r :: rest)) now w = .normal ()
              (addLog now ("Added to Airtable: " ++ r.id)
                { w with calls := w.calls ++ [.airtableCreate "Failed Payments" [fields]] }))
          ∧ (∀ error : JSError, addToAirtable B pd (.rejected error) now w = .normal ()
              (addLog now ("Airtable error: " ++ error.message)
                { w with calls := w.calls ++ [.airtableCreate "Failed Payments" [fields]] }))
          ∧ addToAirtable B pd (.resolved []) now w = .normal ()
              (addLog now
                ("Airtable error: Cannot read properties of undefined (reading \x27id\x27)")
                { w with calls := w.calls ++ [.airtableCreate "Failed Payments" [fields]] }))
    ∧ (∀ (pd : PaymentData) (id email reason : String) (n : JSNum),
        pd.payment_id = .str id → pd.customer_email = .str email →
        pd.failure_message = .str reason → pd.amount = .num n →
        (∃ message, alertMessage B env pd = .ok message)
          ∧ pd.payment_id.toStr B = .ok id
          ∧ ∃ fields, airtableFields B pd = .ok fields)
    ∧ (∀ (pd : PaymentData) (e : JSError) (send : GmailOutcome),
        alertMessage B env pd = .error e →
        sendGmailAlert B env pd send now w
          = .normal () (addLog now ("Gmail error: " ++ e.message) w))
    ∧ (∀ (pd : PaymentData) (e : JSError) (create : AirtableOutcome),
        airtableFields B pd = .error e →
        addToAirtable B pd create now w
          = .normal () (addLog now ("Airtable error: " ++ e.message) w))
    ∧ (∀ (msg : String) (w1 : World),
        (addLog now msg w1).logs = sliceLast 50 (w1.logs ++ [⟨now, msg⟩])
          ∧ (addLog now msg w1).calls = w1.calls) := by
  refine ⟨fun pd send => sendGmailAlert_normal B env pd send now w,
    fun pd create => addToAirtable_normal B pd create now w, ?_,
    fun pd fields hf => addToAirtable_of_fields B pd fields now w hf,
    fun pd id email reason n hid hemail hreason hn =>
      typed_record_converts B env pd id email reason n hid hemail hreason hn,
    fun pd e send hm => sendGmailAlert_of_error B env pd e send now w hm,
    fun pd e create hf => addToAirtable_of_error B pd e create now w hf,
    fun msg w1 => ⟨addLog_logs now msg w1, rfl⟩⟩
  intro pd message hm
  obtain ⟨id, hid⟩ := alertMessage_ok_inv B env pd message hm
  exact ⟨id, hid, sendGmailAlert_of_message B env pd message id now w hm hid⟩

/-- C10, at concrete inputs: the record of `POST /test` with a Gmail send that
resolves, and a record whose amount cannot be converted. -/
theorem sinks_log_once_and_return_witness :
    (sendGmailAlert sampleBuiltins sampleEnv testData .resolved "t1" World.init).world.logs
        = [⟨"t1", "Alert sent for test_1700000000000"⟩]
      ∧ gmailAttempts
          (sendGmailAlert sampleBuiltins sampleEnv testData .resolved "t1" World.init).world.calls
        = 1
      ∧ sendGmailAlert sampleBuiltins sampleEnv oddPayment .resolved "t1" World.init
        = .normal () (addLog "t1" "Gmail error: Cannot convert object to primitive value"
            World.init)
      ∧ addToAirtable sampleBuiltins oddPayment (.resolved [⟨"rec1"⟩]) "t2" World.init
        = .normal () (addLog "t2" "Airtable error: Cannot convert object to primitive value"
            World.init) := by
  obtain ⟨⟨message, hm⟩, hid, _⟩ :=
    (sinks_log_once_and_return sampleBuiltins sampleEnv "t1" World.init).2.2.2.2.1 testData
      "test_1700000000000" "test@example.com" "Test failure" (.fin false 5000 0) rfl rfl rfl rfl
  obtain ⟨id, hid2, g1, _⟩ :=
    (sinks_log_once_and_return sampleBuiltins sampleEnv "t1" World.init).2.2.1 testData
      message hm
  have hidEq : id = "test_1700000000000" := by
    rw [hid] at hid2
    exact (Except.ok.inj hid2).symm
  subst hidEq
  refine ⟨?_, ?_, ?_, ?_⟩
  · rw [g1]
    rfl
  · rw [g1]
    rfl
  · exact (sinks_log_once_and_return sampleBuiltins sampleEnv "t1" World.init).2.2.2.2.2.1
      oddPayment typeErrorPrimitive .resolved rfl
  · exact (sinks_log_once_and_return sampleBuiltins sampleEnv "t2" World.init).2.2.2.2.2.2.1
      oddPayment typeErrorPrimitive (.resolved [⟨"rec1"⟩]) rfl

/-! ## The webhook -/

set_option maxRecDepth 8000

theorem processFailedPayment_normal (B : Builtins) (env : Env) (event : JSVal)
    (pd : PaymentData) (x : Externals) (w : World) (hpd : normalizeEvent B event = .ok pd) :
    ∃ w1, processFailedPayment B env event x w = .normal () w1 := by
  obtain ⟨m1, c1, h1⟩ := sendGmailAlert_normal B env pd x.send x.nowGmail w
  obtain ⟨m2, c2, h2⟩ := addToAirtable_normal B pd x.create x.nowAirtable
    (addLog x.nowGmail m1 { w with calls := w.calls ++ c1 })
  have h : processFailedPayment B env event x w
      = addToAirtable B pd x.create x.nowAirtable
          (addLog x.nowGmail m1 { w with calls := w.calls ++ c1 }) := by
    unfold processFailedPayment
    rw [hpd]
    simp only [h1]
  rw [h, h2]
  exact ⟨_, rfl⟩

theorem webhookStripe_response_independent (B : Builtins) (S : Stripe) (env : Env)
    (body : ReqBody) (sig : Option String) (x x1 : Externals) (w : World) :
    (webhookStripe B S env body sig x1 w).response = (webhookStripe B S env body sig x w).response := by
  cases hv : constructEvent S body sig env.STRIPE_WEBHOOK_SECRET with
  | error err => simp [webhookStripe, hv]
  | ok event =>
    cases htype : event.getProp .type with
    | error e => simp [webhookStripe, hv, htype]
    | ok type =>
      cases hb : type.isStr paymentFailed with
      | false => simp [webhookStripe, hv, htype, hb]
      | true =>
        cases hpd : normalizeEvent B event with
        | error e =>
          simp [webhookStripe, hv, htype, hb, processFailedPayment, hpd, HandlerResult.response]
        | ok pd =>
          obtain ⟨w1, h1⟩ := processFailedPayment_normal B env event pd x w hpd
          obtain ⟨w2, h2⟩ := processFailedPayment_normal B env event pd x1 w hpd
          simp [webhookStripe, hv, htype, hb, h1, h2, HandlerResult.response]

theorem bodyParsers_of_json_object (P : BodyParser) (req : Request)
    (ps : List (String × JSVal)) (hbody : req.hasBody = true) (hjson : req.jsonType = true)
    (hparse : P.readJson req.rawBody = some (.object ps)) :
    bodyParsers P req = some (.value (.obj ps)) := by
  simp [bodyParsers, expressJson, expressRaw, ReqState.init, hbody, hjson, hparse, JsonDoc.toVal]

/-- Whatever the request, the handler never finds the bytes of the body in
`req.body`: after the two parsers it is `undefined`, an object or an array. -/
theorem bodyParsers_never_buffer (P : BodyParser) (req : Request) (body : ReqBody)
    (h : bodyParsers P req = some body) :
    body = .value .undefined ∨ (∃ ps, body = .value (.obj ps)) ∨ ∃ xs, body = .value (.arr xs) := by
  unfold bodyParsers expressJson expressRaw at h
  simp only [ReqState.init] at h
  by_cases hbody : req.hasBody = true
  · by_cases hjson : req.jsonType = true
    · cases hparse : P.readJson req.rawBody with
      | none => simp [hbody, hjson, hparse] at h
      | some doc =>
        cases doc with
        | object ps =>
          simp [hbody, hjson, hparse, JsonDoc.toVal] at h
          exact Or.inr (Or.inl ⟨ps, h.symm⟩)
        | array xs =>
          simp [hbody, hjson, hparse, JsonDoc.toVal] at h
          exact Or.inr (Or.inr ⟨xs, h.symm⟩)
    · cases hi : P.initBody <;>
        simp [hbody, hjson, initReqBody, hi, JSVal.truthy] at h
      · exact Or.inl h.symm
      · exact Or.inr (Or.inl ⟨[], h.symm⟩)
  · cases hi : P.initBody <;>
      simp [hbody, initReqBody, hi, JSVal.truthy] at h
    · exact Or.inl h.symm
    · exact Or.inr (Or.inl ⟨[], h.symm⟩)

/-- Every request with a JSON object as body, whatever its signature, is
answered 400: `express.json()` hands the parsed object to the handler and
`constructEvent` throws on it. -/
theorem postWebhookStripe_of_json_object (B : Builtins) (P : BodyParser) (S : Stripe) (env : Env)
    (req : Request) (ps : List (String × JSVal)) (x : Externals) (w : World)
    (hbody : req.hasBody = true) (hjson : req.jsonType = true)
    (hparse : P.readJson req.rawBody = some (.object ps)) :
    postWebhookStripe B P S env req x w = some (.responded
      ⟨400, .text ("Webhook Error: " ++ (S.payloadError (.obj ps) req.signature).message)⟩ w) := by
  unfold postWebhookStripe
  rw [bodyParsers_of_json_object P req ps hbody hjson hparse]
  simp [webhookStripe, constructEvent]

/-- C1: when `constructEvent` throws, the handler responds 400 with
`"Webhook Error: <message>"` and leaves the state as it was: no Gmail send,
no Airtable create, no log entry. -/
theorem webhook_rejects_failed_verification (B : Builtins) (S : Stripe) (env : Env)
    (body : ReqBody) (sig : Option String) (err : JSError) (x : Externals) (w : World)
    (hverify : constructEvent S body sig env.STRIPE_WEBHOOK_SECRET = .error err) :
    webhookStripe B S env body sig x w
        = .responded ⟨400, .text ("Webhook Error: " ++ err.message)⟩ w
      ∧ gmailAttempts (webhookStripe B S env body sig x w).world.calls = gmailAttempts w.calls
      ∧ airtableAttempts (webhookStripe B S env body sig x w).world.calls
          = airtableAttempts w.calls
      ∧ (webhookStripe B S env body sig x w).world.logs = w.logs := by
  have h : webhookStripe B S env body sig x w
      = .responded ⟨400, .text ("Webhook Error: " ++ err.message)⟩ w := by
    unfold webhookStripe
    rw [hverify]
  rw [h]
  exact ⟨rfl, rfl, rfl, rfl⟩

/-- C1, at a concrete input: the bytes of an event with a signature that does
not match. -/
theorem webhook_rejects_failed_verification_witness :
    constructEvent sampleStripe (.buffer rawOther) (some "t=1700000000,v1=000000")
        sampleEnv.STRIPE_WEBHOOK_SECRET = .error signatureMismatch
      ∧ webhookStripe sampleBuiltins sampleStripe sampleEnv (.buffer rawOther)
          (some "t=1700000000,v1=000000") sampleExternals World.init
        = .responded
          ⟨400, .text "Webhook Error: No signatures found matching the expected signature for payload."⟩
          World.init :=
  ⟨rfl, (webhook_rejects_failed_verification sampleBuiltins sampleStripe sampleEnv
    (.buffer rawOther) (some "t=1700000000,v1=000000") signatureMismatch sampleExternals
    World.init rfl).1⟩

/-- C7 fails on the code: the delivery of a `charge.succeeded` event with a
valid signature is answered 400 with `"Webhook Error: ..."`, not 200 with
`{"received": true}`. `express.json()` has replaced the bytes of the body by
the parsed object before the handler runs, and `constructEvent` throws on it.
On the bytes themselves, which `express.raw()` on line 27 was meant to
provide, the handler gives the answer the claim states. -/
theorem webhook_rejects_valid_delivery_of_other_type :
    sampleStripe.verify deliveryOther.rawBody deliveryOther.signature
        sampleEnv.STRIPE_WEBHOOK_SECRET = .ok eventOther
      ∧ eventOther.getProp .type = .ok (.str "charge.succeeded")
      ∧ bodyParsers sampleParser deliveryOther = some (.value eventOther)
      ∧ postWebhookStripe sampleBuiltins sampleParser sampleStripe sampleEnv deliveryOther
          sampleExternals World.init
        = some (.responded
          ⟨400, .text "Webhook Error: Webhook payload must be provided as a string or a Buffer."⟩
          World.init)
      ∧ webhookStripe sampleBuiltins sampleStripe sampleEnv (.buffer deliveryOther.rawBody)
          deliveryOther.signature sampleExternals World.init
        = .responded received World.init :=
  ⟨rfl, rfl, rfl, rfl, rfl⟩

/-- C2 fails on the code: the delivery of a well-formed payment-failed event
with a valid signature makes no Gmail send attempt and no Airtable create
attempt, because `constructEvent` throws on the parsed body and the handler
returns before `processFailedPayment`. On the bytes themselves the handler
makes one attempt of each, as the claim states. -/
theorem webhook_makes_no_attempt_on_valid_delivery :
    sampleStripe.verify deliveryComplete.rawBody deliveryComplete.signature
        sampleEnv.STRIPE_WEBHOOK_SECRET = .ok eventComplete
      ∧ eventComplete.getProp .type = .ok (.str paymentFailed)
      ∧ (∃ r, postWebhookStripe sampleBuiltins sampleParser sampleStripe sampleEnv
            deliveryComplete sampleExternals World.init = some r
          ∧ gmailAttempts r.world.calls = 0 ∧ airtableAttempts r.world.calls = 0)
      ∧ gmailAttempts (webhookStripe sampleBuiltins sampleStripe sampleEnv
          (.buffer deliveryComplete.rawBody) deliveryComplete.signature sampleExternals
          World.init).world.calls = 1
      ∧ airtableAttempts (webhookStripe sampleBuiltins sampleStripe sampleEnv
          (.buffer deliveryComplete.rawBody) deliveryComplete.signature sampleExternals
          World.init).world.calls = 1 :=
  ⟨rfl, rfl, ⟨_, rfl, rfl, rfl⟩, rfl, rfl⟩

/-- C3 fails on the code in its first part: the delivery of a well-formed
payment-failed event with a valid signature is answered 400, not 200,
whatever the sinks would do, because `constructEvent` throws on the parsed
body. The second part holds: on every delivery the response does not depend
on the outcomes of the Gmail send and the Airtable create. -/
theorem webhook_answers_400_to_valid_delivery :
    sampleStripe.verify deliveryComplete.rawBody deliveryComplete.signature
        sampleEnv.STRIPE_WEBHOOK_SECRET = .ok eventComplete
      ∧ (∀ x : Externals,
          postWebhookStripe sampleBuiltins sampleParser sampleStripe sampleEnv deliveryComplete x
              World.init
            = some (.responded
              ⟨400, .text "Webhook Error: Webhook payload must be provided as a string or a Buffer."⟩
              World.init))
      ∧ (∀ (B : Builtins) (P : BodyParser) (S : Stripe) (env : Env) (req : Request)
          (x x1 : Externals) (w : World),
          (postWebhookStripe B P S env req x1 w).map HandlerResult.response
            = (postWebhookStripe B P S env req x w).map HandlerResult.response) := by
  refine ⟨rfl, fun x => ?_, ?_⟩
  · exact postWebhookStripe_of_json_object sampleBuiltins sampleParser sampleStripe sampleEnv
      deliveryComplete eventCompleteProps x World.init rfl rfl rfl
  · intro B P S env req x x1 w
    unfold postWebhookStripe
    cases bodyParsers P req with
    | none => rfl
    | some body =>
      simp only [Option.map]
      rw [webhookStripe_response_independent]

/-! ## Amounts: division by 100 and `toFixed(2)` -/

theorem bitLenAux_spec (fuel : Nat) : ∀ n : Nat, n ≤ fuel →
    n < 2 ^ bitLenAux fuel n ∧ (0 < n → 2 ^ (bitLenAux fuel n - 1) ≤ n) := by
  induction fuel with
  | zero =>
    intro n hn
    have h0 : n = 0 := by omega
    subst h0
    simp [bitLenAux]
  | succ fuel ih =>
    intro n hn
    by_cases h0 : n = 0
    · subst h0
      simp [bitLenAux]
    · have hstep : bitLenAux (fuel + 1) n = bitLenAux fuel (n / 2) + 1 := by
        simp [bitLenAux, h0]
      obtain ⟨h1, h2⟩ := ih (n / 2) (by omega)
      rw [hstep]
      constructor
      · rw [Nat.pow_succ]
        omega
      · intro _
        rw [Nat.add_sub_cancel]
        by_cases h1n : n / 2 = 0
        · have hb : bitLenAux fuel (n / 2) = 0 := by
            rw [h1n]
            cases fuel <;> simp [bitLenAux]
          rw [hb]
          simp
          omega
        · have h3 := h2 (by omega)
          have h4 : bitLenAux fuel (n / 2) = (bitLenAux fuel (n / 2) - 1) + 1 := by
            have : bitLenAux fuel (n / 2) ≠ 0 := by
              intro h
              rw [h] at h1
              simp at h1
              omega
            omega
          rw [h4, Nat.pow_succ]
          omega

theorem lt_two_pow_bitLen (n : Nat) : n < 2 ^ bitLen n := (bitLenAux_spec n n (Nat.le_refl _)).1

theorem two_pow_bitLen_le (n : Nat) (h : 0 < n) : 2 ^ (bitLen n - 1) ≤ n :=
  (bitLenAux_spec n n (Nat.le_refl _)).2 h

theorem bitLen_pos (n : Nat) (h : 0 < n) : 0 < bitLen n := by
  rcases Nat.eq_zero_or_pos (bitLen n) with h0 | h0
  · have := lt_two_pow_bitLen n
    rw [h0] at this
    simp at this
    omega
  · exact h0

theorem bitLen_le_of_lt (n j : Nat) (h : n < 2 ^ j) : bitLen n ≤ j := by
  rcases Nat.eq_zero_or_pos n with h0 | h0
  · subst h0
    simp [bitLen, bitLenAux]
  · have h1 := two_pow_bitLen_le n h0
    by_contra hc
    have h2 : 2 ^ j ≤ 2 ^ (bitLen n - 1) := Nat.pow_le_pow_right (by decide) (by omega)
    omega

theorem roundHalfEven_spec (p q : Nat) (hq : 0 < q) :
    2 * (roundHalfEven p q * q) ≤ 2 * p + q ∧ 2 * p ≤ 2 * (roundHalfEven p q * q) + q := by
  have hdm := Nat.div_add_mod p q
  have hmod := Nat.mod_lt p hq
  have hsucc : (p / q + 1) * q = q * (p / q) + q := by ring
  have hcomm : p / q * q = q * (p / q) := Nat.mul_comm _ _
  unfold roundHalfEven
  split_ifs <;> simp only [hsucc, hcomm] <;> generalize q * (p / q) = t at * <;> omega

theorem toDigitsCore_append (fuel : Nat) : ∀ (n : Nat) (ds : List Char),
    Nat.toDigitsCore 10 fuel n ds = Nat.toDigitsCore 10 fuel n [] ++ ds := by
  induction fuel with
  | zero => intro n ds; simp [Nat.toDigitsCore]
  | succ fuel ih =>
    intro n ds
    simp only [Nat.toDigitsCore]
    split
    · simp
    · rw [ih (n / 10) (Nat.digitChar (n % 10) :: ds), ih (n / 10) [Nat.digitChar (n % 10)]]
      simp

theorem toDigitsCore_fuel (f1 : Nat) : ∀ (f2 n : Nat), n < f1 → n < f2 →
    Nat.toDigitsCore 10 f1 n [] = Nat.toDigitsCore 10 f2 n [] := by
  induction f1 with
  | zero => intro f2 n h; omega
  | succ f1 ih =>
    intro f2 n h1 h2
    cases f2 with
    | zero => omega
    | succ f2 =>
      simp only [Nat.toDigitsCore]
      split
      · rfl
      · rw [toDigitsCore_append f1, toDigitsCore_append f2, ih f2 (n / 10) (by omega) (by omega)]

theorem toDigits_of_lt_ten (n : Nat) (h : n < 10) : Nat.toDigits 10 n = [Nat.digitChar n] := by
  have h0 : n / 10 = 0 := by omega
  have h1 : n % 10 = n := by omega
  simp [Nat.toDigits, Nat.toDigitsCore, h0, h1]

theorem toDigits_of_ten_le (n : Nat) (h : 10 ≤ n) :
    Nat.toDigits 10 n = Nat.toDigits 10 (n / 10) ++ [Nat.digitChar (n % 10)] := by
  have h0 : n / 10 ≠ 0 := by omega
  have hL : Nat.toDigits 10 n = Nat.toDigitsCore 10 n (n / 10) [Nat.digitChar (n % 10)] := by
    simp only [Nat.toDigits, Nat.toDigitsCore, h0, if_false]
  rw [hL, toDigitsCore_append n, toDigitsCore_fuel n (n / 10 + 1) (n / 10) (by omega) (by omega)]
  rfl

/-- The decimal digits of `n` with the last two set off by a point are the
digits of `n / 100`, a point, and `n % 100` written with two digits. -/
theorem fixed2Digits_eq (n : Nat) :
    fixed2Digits n
      = Nat.repr (n / 100) ++ "." ++ (if n % 100 < 10 then "0" else "") ++ Nat.repr (n % 100) := by
  apply String.ext
  have hz : Nat.toDigits 10 0 = ['0'] := rfl
  rcases Nat.lt_or_ge n 10 with h1 | h1
  · have e1 : n / 100 = 0 := by omega
    have e2 : n % 100 = n := by omega
    simp [fixed2Digits, Nat.repr, toDigits_of_lt_ten n h1, e1, e2, h1, List.asString, hz]
  · rcases Nat.lt_or_ge n 100 with h2 | h2
    · have e1 : n / 100 = 0 := by omega
      have e2 : n % 100 = n := by omega
      have e3 : ¬ n < 10 := by omega
      simp [fixed2Digits, Nat.repr, toDigits_of_ten_le n h1,
        toDigits_of_lt_ten (n / 10) (by omega), e1, e2, e3, List.asString, hz]
    · have hd : Nat.toDigits 10 n = Nat.toDigits 10 (n / 100)
          ++ [Nat.digitChar (n / 10 % 10), Nat.digitChar (n % 10)] := by
        rw [toDigits_of_ten_le n h1, toDigits_of_ten_le (n / 10) (by omega)]
        have : n / 10 / 10 = n / 100 := by omega
        rw [this]
        simp
      have hlen : ¬ (Nat.toDigits 10 n).length ≤ 2 := by
        rw [hd]
        have : 0 < (Nat.toDigits 10 (n / 100)).length := by
          rcases Nat.lt_or_ge (n / 100) 10 with h | h
          · rw [toDigits_of_lt_ten _ h]; simp
          · rw [toDigits_of_ten_le _ h]; simp
        simp only [List.length_append, List.length_cons, List.length_nil]
        omega
      have hlen2 : (Nat.toDigits 10 n).length - 2 = (Nat.toDigits 10 (n / 100)).length := by
        rw [hd]
        simp
      have hfix : (fixed2Digits n).data = Nat.toDigits 10 (n / 100)
          ++ '.' :: [Nat.digitChar (n / 10 % 10), Nat.digitChar (n % 10)] := by
        simp only [fixed2Digits, hlen, if_false, hlen2]
        rw [hd]
        simp
      rw [hfix]
      by_cases h3 : n % 100 < 10
      · have e1 : n / 10 % 10 = 0 := by omega
        have e2 : n % 10 = n % 100 := by omega
        have e3 : Nat.digitChar 0 = '0' := rfl
        simp [Nat.repr, h3, e1, e2, e3, List.asString, toDigits_of_lt_ten (n % 100) h3]
      · have e1 : n / 10 % 10 = n % 100 / 10 := by omega
        have e2 : n % 10 = n % 100 % 10 := by omega
        simp [Nat.repr, h3, e1, e2, List.asString, toDigits_of_ten_le (n % 100) (by omega),
          toDigits_of_lt_ten (n % 100 / 10) (by omega)]

theorem two_zpow_split (d : ℤ) :
    (2 : ℚ) ^ d = ((2 ^ d.toNat : ℕ) : ℚ) / ((2 ^ (-d).toNat : ℕ) : ℚ) := by
  rcases le_total 0 d with h | h
  · obtain ⟨n, rfl⟩ := Int.eq_ofNat_of_zero_le h
    have h1 : (-(n : ℤ)).toNat = 0 := by omega
    simp [h1]
  · obtain ⟨n, hn⟩ := Int.eq_ofNat_of_zero_le (neg_nonneg.mpr h)
    have hd : d = -(n : ℤ) := by omega
    subst hd
    have h1 : (-(n : ℤ)).toNat = 0 := by omega
    simp [h1]

theorem scaled_le_iff (p q : Nat) (d : ℤ) :
    q * 2 ^ d.toNat ≤ p * 2 ^ (-d).toNat ↔ (2 : ℚ) ^ d * q ≤ p := by
  have hpos : (0 : ℚ) < ((2 ^ (-d).toNat : ℕ) : ℚ) := by positivity
  rw [two_zpow_split d, div_mul_eq_mul_div, div_le_iff₀ hpos]
  constructor
  · intro h
    have : ((q * 2 ^ d.toNat : ℕ) : ℚ) ≤ ((p * 2 ^ (-d).toNat : ℕ) : ℚ) := by exact_mod_cast h
    push_cast at this ⊢
    linarith
  · intro h
    have : ((q * 2 ^ d.toNat : ℕ) : ℚ) ≤ ((p * 2 ^ (-d).toNat : ℕ) : ℚ) := by
      push_cast at h ⊢
      linarith
    exact_mod_cast this

theorem floorLog2Ratio_spec (p q : Nat) (hp : 0 < p) (hq : 0 < q) :
    (2 : ℚ) ^ floorLog2Ratio p q * q ≤ p ∧ (p : ℚ) < 2 ^ (floorLog2Ratio p q + 1) * q := by
  have hp1 := lt_two_pow_bitLen p
  have hp2 := two_pow_bitLen_le p hp
  have hq1 := lt_two_pow_bitLen q
  have hq2 := two_pow_bitLen_le q hq
  have hbp := bitLen_pos p hp
  have hbq := bitLen_pos q hq
  have hp1' : (p : ℚ) < 2 ^ (bitLen p : ℤ) := by
    rw [zpow_natCast]
    exact_mod_cast hp1
  have hp2' : (2 : ℚ) ^ ((bitLen p : ℤ) - 1) ≤ p := by
    have : ((bitLen p : ℤ) - 1) = ((bitLen p - 1 : ℕ) : ℤ) := by omega
    rw [this, zpow_natCast]
    exact_mod_cast hp2
  have hq1' : (q : ℚ) < 2 ^ (bitLen q : ℤ) := by
    rw [zpow_natCast]
    exact_mod_cast hq1
  have hq2' : (2 : ℚ) ^ ((bitLen q : ℤ) - 1) ≤ q := by
    have : ((bitLen q : ℤ) - 1) = ((bitLen q - 1 : ℕ) : ℤ) := by omega
    rw [this, zpow_natCast]
    exact_mod_cast hq2
  have h2 : (2 : ℚ) ≠ 0 := by norm_num
  unfold floorLog2Ratio
  simp only
  split
  · rename_i htest
    refine ⟨(scaled_le_iff p q _).mp htest, ?_⟩
    have e1 : (2 : ℚ) ^ ((bitLen p : ℤ) - (bitLen q : ℤ) + 1) * 2 ^ ((bitLen q : ℤ) - 1)
        = 2 ^ (bitLen p : ℤ) := by
      rw [← zpow_add₀ h2]
      congr 1
      ring
    have hpos : (0 : ℚ) < 2 ^ ((bitLen p : ℤ) - (bitLen q : ℤ) + 1) := by positivity
    calc (p : ℚ) < 2 ^ (bitLen p : ℤ) := hp1'
      _ = 2 ^ ((bitLen p : ℤ) - (bitLen q : ℤ) + 1) * 2 ^ ((bitLen q : ℤ) - 1) := e1.symm
      _ ≤ 2 ^ ((bitLen p : ℤ) - (bitLen q : ℤ) + 1) * q :=
        mul_le_mul_of_nonneg_left hq2' (le_of_lt hpos)
  · rename_i htest
    have hlt : (p : ℚ) < 2 ^ ((bitLen p : ℤ) - (bitLen q : ℤ)) * q := by
      by_contra hc
      exact htest ((scaled_le_iff p q _).mpr (not_lt.mp hc))
    refine ⟨?_, ?_⟩
    · have e1 : (2 : ℚ) ^ ((bitLen p : ℤ) - (bitLen q : ℤ) - 1) * 2 ^ (bitLen q : ℤ)
          = 2 ^ ((bitLen p : ℤ) - 1) := by
        rw [← zpow_add₀ h2]
        congr 1
        ring
      have hpos : (0 : ℚ) < 2 ^ ((bitLen p : ℤ) - (bitLen q : ℤ) - 1) := by positivity
      calc (2 : ℚ) ^ ((bitLen p : ℤ) - (bitLen q : ℤ) - 1) * q
          ≤ 2 ^ ((bitLen p : ℤ) - (bitLen q : ℤ) - 1) * 2 ^ (bitLen q : ℤ) :=
            mul_le_mul_of_nonneg_left (le_of_lt hq1') (le_of_lt hpos)
        _ = 2 ^ ((bitLen p : ℤ) - 1) := e1
        _ ≤ p := hp2'
    · have : (bitLen p : ℤ) - (bitLen q : ℤ) - 1 + 1 = (bitLen p : ℤ) - (bitLen q : ℤ) := by ring
      rw [this]
      exact hlt

theorem toRat_eq_nat_iff (m a : Nat) (e : ℤ) :
    (JSNum.fin false m e).toRat = (a : ℚ) ↔ m * 2 ^ e.toNat = a * 2 ^ (-e).toNat := by
  have hpos : (0 : ℚ) < ((2 ^ (-e).toNat : ℕ) : ℚ) := by positivity
  simp only [JSNum.toRat, Bool.false_eq_true, if_false, one_mul]
  rw [two_zpow_split e, ← mul_div_assoc, div_eq_iff (ne_of_gt hpos)]
  constructor
  · intro h
    have : ((m * 2 ^ e.toNat : ℕ) : ℚ) = ((a * 2 ^ (-e).toNat : ℕ) : ℚ) := by
      push_cast at h ⊢
      exact h
    exact_mod_cast this
  · intro h
    have : ((m * 2 ^ e.toNat : ℕ) : ℚ) = ((a * 2 ^ (-e).toNat : ℕ) : ℚ) := by rw [h]
    push_cast at this ⊢
    exact this

/-- The quotient by 100 of a number whose value is the integer `a`, for
`0 < a < 100 * 2 ^ 46`: the mantissa is `a * 2 ^ k / 100` rounded, for the
`k` between 7 and 59 that leaves it 53 bits. -/
theorem divNat_hundred_spec (m a : Nat) (e : ℤ)
    (hval : m * 2 ^ e.toNat = a * 2 ^ (-e).toNat) (ha0 : 0 < a) (ha : a < 100 * 2 ^ 46) :
    ∃ mant k : Nat, 7 ≤ k ∧ k ≤ 59
      ∧ JSNum.divNat (.fin false m e) 100 = .fin false mant (-(k : ℤ))
      ∧ 200 * mant ≤ 2 * (a * 2 ^ k) + 100 ∧ 2 * (a * 2 ^ k) ≤ 200 * mant + 100
      ∧ (2 : ℚ) ^ (52 - (k : ℤ)) * 100 ≤ a := by
  have hc : 0 < 2 ^ (-e).toNat := Nat.pow_pos (by decide)
  have hcq : (0 : ℚ) < ((2 ^ (-e).toNat : ℕ) : ℚ) := by exact_mod_cast hc
  obtain ⟨hlo, hhi⟩ := floorLog2Ratio_spec (a * 2 ^ (-e).toNat) (100 * 2 ^ (-e).toNat)
    (Nat.mul_pos ha0 hc) (Nat.mul_pos (by decide) hc)
  generalize hL : floorLog2Ratio (a * 2 ^ (-e).toNat) (100 * 2 ^ (-e).toNat) = L at hlo hhi
  have hlo' : (2 : ℚ) ^ L * 100 ≤ a := by
    push_cast at hlo
    have : (2 : ℚ) ^ L * 100 * (2 ^ (-e).toNat : ℚ) ≤ a * (2 ^ (-e).toNat : ℚ) := by linarith
    exact le_of_mul_le_mul_right this (by positivity)
  have hhi' : (a : ℚ) < 2 ^ (L + 1) * 100 := by
    push_cast at hhi
    have : a * (2 ^ (-e).toNat : ℚ) < 2 ^ (L + 1) * 100 * (2 ^ (-e).toNat : ℚ) := by linarith
    exact lt_of_mul_lt_mul_right this (by positivity)
  have haq : (a : ℚ) < 100 * 2 ^ 46 := by exact_mod_cast ha
  have ha1 : (1 : ℚ) ≤ a := by exact_mod_cast ha0
  have hL1 : L ≤ 45 := by
    by_contra hcon
    have h46 : (2 : ℚ) ^ (46 : ℤ) ≤ 2 ^ L := zpow_le_zpow_right₀ (by norm_num) (by omega)
    have : (2 : ℚ) ^ (46 : ℤ) = 2 ^ 46 := by norm_num
    rw [this] at h46
    linarith
  have hL2 : -7 ≤ L := by
    by_contra hcon
    have h7 : (2 : ℚ) ^ (L + 1) ≤ 2 ^ (-7 : ℤ) := zpow_le_zpow_right₀ (by norm_num) (by omega)
    have : (2 : ℚ) ^ (-7 : ℤ) = 1 / 128 := by norm_num
    rw [this] at h7
    linarith
  obtain ⟨k, hk⟩ : ∃ k : Nat, (k : ℤ) = 52 - L := ⟨(52 - L).toNat, by omega⟩
  have hE : max (L - 52) (-1074) = -(k : ℤ) := by omega
  have hEn : (-(-(k : ℤ))).toNat = k := by omega
  have hEp : (-(k : ℤ)).toNat = 0 := by omega
  have hspec := roundHalfEven_spec (a * 2 ^ (-e).toNat * 2 ^ k) (100 * 2 ^ (-e).toNat)
    (Nat.mul_pos (by decide) hc)
  generalize hmant : roundHalfEven (a * 2 ^ (-e).toNat * 2 ^ k) (100 * 2 ^ (-e).toNat) = mant
    at hspec
  have h1 : 200 * mant ≤ 2 * (a * 2 ^ k) + 100 := by
    have : (200 * mant) * 2 ^ (-e).toNat ≤ (2 * (a * 2 ^ k) + 100) * 2 ^ (-e).toNat := by
      have e1 : (200 * mant) * 2 ^ (-e).toNat = 2 * (mant * (100 * 2 ^ (-e).toNat)) := by ring
      have e2 : (2 * (a * 2 ^ k) + 100) * 2 ^ (-e).toNat
          = 2 * (a * 2 ^ (-e).toNat * 2 ^ k) + 100 * 2 ^ (-e).toNat := by ring
      rw [e1, e2]
      exact hspec.1
    exact Nat.le_of_mul_le_mul_right this hc
  have h2 : 2 * (a * 2 ^ k) ≤ 200 * mant + 100 := by
    have : (2 * (a * 2 ^ k)) * 2 ^ (-e).toNat ≤ (200 * mant + 100) * 2 ^ (-e).toNat := by
      have e1 : (200 * mant + 100) * 2 ^ (-e).toNat
          = 2 * (mant * (100 * 2 ^ (-e).toNat)) + 100 * 2 ^ (-e).toNat := by ring
      have e2 : (2 * (a * 2 ^ k)) * 2 ^ (-e).toNat = 2 * (a * 2 ^ (-e).toNat * 2 ^ k) := by ring
      rw [e1, e2]
      exact hspec.2
    exact Nat.le_of_mul_le_mul_right this hc
  have hk59 : k ≤ 59 := by omega
  have hpk : 2 ^ k ≤ 2 ^ 59 := Nat.pow_le_pow_right (by decide) hk59
  have hak : a * 2 ^ k < 100 * 2 ^ 46 * 2 ^ 59 :=
    Nat.mul_lt_mul_of_lt_of_le ha hpk (Nat.pow_pos (by decide))
  have hbit : ¬ 1024 < bitLen (mant * 2 ^ 0) := by
    have : mant * 2 ^ 0 < 2 ^ 1024 := by
      have h3 : mant < 100 * 2 ^ 46 * 2 ^ 59 + 1 := by omega
      calc mant * 2 ^ 0 = mant := by simp
        _ < 100 * 2 ^ 46 * 2 ^ 59 + 1 := h3
        _ ≤ 2 ^ 1024 := by norm_num
    have := bitLen_le_of_lt _ _ this
    omega
  refine ⟨mant, k, by omega, hk59, ?_, h1, h2, ?_⟩
  · have hne : a * 2 ^ (-e).toNat ≠ 0 := Nat.pos_iff_ne_zero.mp (Nat.mul_pos ha0 hc)
    simp only [JSNum.divNat, roundToDouble, hval, hne, if_false, hL, hE, hEn, hEp, hbit,
      Nat.pow_zero, Nat.mul_one, hmant]
    simp only [Nat.pow_zero, Nat.mul_one] at hbit
    simp [hbit]
  · have : (52 : ℤ) - (k : ℤ) = L := by omega
    rw [this]
    exact hlo'

theorem toFixed2_divNat_hundred (B : Builtins) (m a : Nat) (e : ℤ)
    (hval : m * 2 ^ e.toNat = a * 2 ^ (-e).toNat) (ha : a < 100 * 2 ^ 46) :
    (JSNum.divNat (.fin false m e) 100).toFixed2 B = fixed2Digits a := by
  rcases Nat.eq_zero_or_pos a with h0 | h0
  · subst h0
    have hp : m * 2 ^ e.toNat = 0 := by simpa using hval
    simp [JSNum.divNat, roundToDouble, hp, JSNum.toFixed2, roundHalfUp]
  · obtain ⟨mant, k, hk7, hk59, hdiv, h1, h2, _⟩ := divNat_hundred_spec m a e hval h0 ha
    have hEn : (-(-(k : ℤ))).toNat = k := by omega
    have hEp : (-(k : ℤ)).toNat = 0 := by omega
    have hpk : 2 ^ 7 ≤ 2 ^ k := Nat.pow_le_pow_right (by decide) hk7
    have hpk2 : 2 ^ k ≤ 2 ^ 59 := Nat.pow_le_pow_right (by decide) hk59
    have hak : a * 2 ^ k < 100 * 2 ^ 46 * 2 ^ 59 :=
      Nat.mul_lt_mul_of_lt_of_le ha hpk2 (Nat.pow_pos (by decide))
    have hak2 : a * 2 ^ k < 100 * 2 ^ 46 * 2 ^ k :=
      Nat.mul_lt_mul_of_pos_right ha (Nat.pow_pos (by decide))
    have hsmall : ¬ 10 ^ 21 * 2 ^ k ≤ mant * 2 ^ 0 := by
      omega
    have hround : roundHalfUp (100 * mant * 2 ^ 0) (2 ^ k) = a := by
      unfold roundHalfUp
      apply Nat.div_eq_of_lt_le
      · have e1 : a * (2 * 2 ^ k) = 2 * (a * 2 ^ k) := by ring
        rw [e1]
        omega
      · have e1 : (a + 1) * (2 * 2 ^ k) = 2 * (a * 2 ^ k) + 2 * 2 ^ k := by ring
        rw [e1]
        omega
    rw [hdiv]
    simp only [JSNum.toFixed2, hEn, hEp, hsmall, if_false, hround]
    simp

theorem toRat_divNat_hundred (m a : Nat) (e : ℤ)
    (hval : m * 2 ^ e.toNat = a * 2 ^ (-e).toNat) (ha : a < 100 * 2 ^ 46) :
    |(JSNum.divNat (.fin false m e) 100).toRat - a / 100| ≤ a / 100 / 2 ^ 53
      ∧ (100 ∣ a → (JSNum.divNat (.fin false m e) 100).toRat = a / 100) := by
  rcases Nat.eq_zero_or_pos a with h0 | h0
  · subst h0
    have hp : m * 2 ^ e.toNat = 0 := by simpa using hval
    simp [JSNum.divNat, roundToDouble, hp, JSNum.toRat]
  · obtain ⟨mant, k, hk7, hk59, hdiv, h1, h2, h3⟩ := divNat_hundred_spec m a e hval h0 ha
    have hP : (0 : ℚ) < 2 ^ k := by positivity
    have hrat : (JSNum.fin false mant (-(k : ℤ))).toRat = mant / 2 ^ k := by
      simp [JSNum.toRat, zpow_neg, div_eq_mul_inv]
    have h1q : (200 : ℚ) * mant ≤ 2 * (a * 2 ^ k) + 100 := by exact_mod_cast h1
    have h2q : (2 : ℚ) * (a * 2 ^ k) ≤ 200 * mant + 100 := by exact_mod_cast h2
    have h3q : (2 : ℚ) ^ 52 * 100 ≤ a * 2 ^ k := by
      have e1 : (2 : ℚ) ^ (52 - (k : ℤ)) = 2 ^ 52 / 2 ^ k := by
        rw [zpow_sub₀ (by norm_num : (2 : ℚ) ≠ 0)]
        norm_cast
      rw [e1, div_mul_eq_mul_div, div_le_iff₀ hP] at h3
      exact h3
    rw [hdiv, hrat]
    constructor
    · have e1 : (mant : ℚ) / 2 ^ k - a / 100 = (100 * mant - a * 2 ^ k) / (100 * 2 ^ k) := by
        field_simp
        ring
      rw [e1, abs_div, abs_of_pos (by positivity : (0 : ℚ) < 100 * 2 ^ k),
        div_le_iff₀ (by positivity)]
      have e2 : (a : ℚ) / 100 / 2 ^ 53 * (100 * 2 ^ k) = a * 2 ^ k / 2 ^ 53 := by
        field_simp
        ring
      rw [e2, abs_le]
      have h4 : (50 : ℚ) ≤ a * 2 ^ k / 2 ^ 53 := by
        rw [le_div_iff₀ (by positivity)]
        linarith
      constructor <;> linarith
    · rintro ⟨b, rfl⟩
      have h1' : 200 * mant ≤ 200 * (b * 2 ^ k) + 100 := by
        have : 2 * (100 * b * 2 ^ k) = 200 * (b * 2 ^ k) := by ring
        omega
      have h2' : 200 * (b * 2 ^ k) ≤ 200 * mant + 100 := by
        have : 2 * (100 * b * 2 ^ k) = 200 * (b * 2 ^ k) := by ring
        omega
      have hm : mant = b * 2 ^ k := by omega
      rw [hm]
      push_cast
      field_simp

/-- C9 (amended): for a record whose amount is a number with the integer value
`a`, `0 ≤ a < 100 * 2 ^ 46` (about `7.04e15`), the alert body renders the
amount as the digits of `a / 100`, a point, and `a % 100` on two digits; the
row for Airtable carries as `Amount` the double nearest to `a / 100`, which is
within a relative error of `2 ^ -53` of it and is `a / 100` itself when 100
divides `a`. -/
theorem amount_rendering (B : Builtins) (pd : PaymentData) (m a : Nat) (e : ℤ)
    (hamount : pd.amount = .num (.fin false m e))
    (hval : (JSNum.fin false m e).toRat = (a : ℚ))
    (ha : a < 100 * 2 ^ 46) :
    alertAmount B pd = .ok (twoDecimals a)
      ∧ (∀ id reason : String, pd.payment_id.toStr B = .ok id →
          pd.failure_message.toStr B = .ok reason →
          alertBody B pd = .ok ("Payment ID: " ++ id ++ "\nAmount: $"
            ++ twoDecimals a ++ "\nReason: " ++ reason))
      ∧ ∃ (fields : Fields) (y : JSNum), airtableFields B pd = .ok fields
          ∧ lookupProp "Amount" fields = .num y
          ∧ |y.toRat - a / 100| ≤ a / 100 / 2 ^ 53
          ∧ (100 ∣ a → y.toRat = a / 100) := by
  have hnat := (toRat_eq_nat_iff m a e).mp hval
  have hfix : alertAmount B pd = .ok (twoDecimals a) := by
    unfold alertAmount twoDecimals
    rw [hamount]
    simp only [JSVal.toNumber, bind, Except.bind, pure, Except.pure]
    rw [toFixed2_divNat_hundred B m a e hnat ha, fixed2Digits_eq]
  refine ⟨hfix, ?_, ?_⟩
  · intro id reason hid hreason
    unfold alertBody
    simp [hfix, hid, hreason, bind, Except.bind, pure, Except.pure]
  · have hf : airtableFields B pd = .ok
        [("Payment ID", pd.payment_id),
         ("Customer Email", pd.customer_email),
         ("Amount", .num (JSNum.divNat (.fin false m e) 100)),
         ("Currency", pd.currency),
         ("Failure Code", pd.failure_code),
         ("Failure Message", pd.failure_message),
         ("Failed At", pd.failed_at),
         ("Status", .str "New")] := by
      unfold airtableFields
      rw [hamount]
      simp only [JSVal.toNumber, bind, Except.bind, pure, Except.pure]
    exact ⟨_, JSNum.divNat (.fin false m e) 100, hf, by simp [lookupProp],
      toRat_divNat_hundred m a e hnat ha⟩

/-- C9 (amended), at the amount of the specification: 5000 minor units are
rendered `"50.00"` in the alert and stored as 50. -/
theorem amount_rendering_witness :
    alertAmount sampleBuiltins testData = .ok "50.00"
      ∧ alertBody sampleBuiltins testData
        = .ok "Payment ID: test_1700000000000\nAmount: $50.00\nReason: Test failure"
      ∧ ∃ (fields : Fields) (y : JSNum), airtableFields sampleBuiltins testData = .ok fields
          ∧ lookupProp "Amount" fields = .num y ∧ y.toRat = 50 := by
  have h := amount_rendering sampleBuiltins testData 5000 5000 0 rfl
    (by norm_num [JSNum.toRat]) (by norm_num)
  refine ⟨h.1.trans rfl, (h.2.1 _ _ rfl rfl).trans rfl, ?_⟩
  obtain ⟨fields, y, hf, hy, _, hdvd⟩ := h.2.2
  refine ⟨fields, y, hf, hy, ?_⟩
  rw [hdvd ⟨50, by norm_num⟩]
  norm_num

/-- C9 as stated fails: the amount `7036874417766401` is an integer and a
double, and the alert renders it `"70368744177664.02"`, not
`"70368744177664.01"`: the quotient by 100 is rounded to a double before it is
printed. -/
theorem amount_rendering_fails_above_bound :
    largePayment.amount = .num (.fin false 7036874417766401 0)
      ∧ 7036874417766401 < 2 ^ 53
      ∧ twoDecimals 7036874417766401 = "70368744177664.01"
      ∧ alertAmount sampleBuiltins largePayment = .ok "70368744177664.02"
      ∧ alertAmount sampleBuiltins largePayment ≠ .ok (twoDecimals 7036874417766401) := by
  have h1 : twoDecimals 7036874417766401 = "70368744177664.01" := by decide
  have h2 : alertAmount sampleBuiltins largePayment = .ok "70368744177664.02" := by rfl
  refine ⟨rfl, by norm_num, h1, h2, ?_⟩
  rw [h1, h2]
  intro h
  exact absurd (Except.ok.inj h) (by decide)


end StripeMonitor
